import Mathlib

/-!
# Subscription lifecycle & reconciliation engine — verification

Shallow embedding of the subscription bot's lifecycle core:
the reminder scheduler, grace-period handler and membership monitor of
`src/services/cronService.js`, the `safeSend` / `handleBlockedUser`
delivery helpers of `src/utils/telegramUtils.js`, the create/renew logic
of `src/services/subscriptionService.js`, and the referral bonus of
`src/services/referralService.js`.

Modelling conventions:
* Timestamps are integers in milliseconds (JS `Date.getTime()`); a day is
  `msPerDay = 86400000` ms, and `Math.floor` of a millisecond difference
  divided by a day is `Int.fdiv`.
* Mongo documents become records in lists.  `doc.save()` /
  `findByIdAndUpdate` write back through the unique `_id` (here `id`);
  `User.findOneAndUpdate({telegramId}, …)` writes through the unique
  `telegramId` index.  Both are modelled by mapping the matching entries
  (under the schema's unique indexes this touches exactly one record).
* Outbound Telegram traffic is recorded in the state: `sent` logs every
  delivery attempt to a user, `chan` every log-channel post, `banCalls`
  every `banChatMember` call.  The delivery outcome for a recipient and
  the success of invite/ban API calls are an environment (`Env`).
* Message and audit-detail text is abstracted to tags; each constructor's
  doc comment names the source string it stands for.
-/

namespace SubBot

/-- Milliseconds per day: `1000 * 60 * 60 * 24` as used throughout
`cronService.js`. -/
def msPerDay : Int := 86400000

/-- `addDays(date, days)` of `dateUtils.js` (calendar-day arithmetic,
modelled as adding whole days in milliseconds). -/
def addDays (d : Int) (n : Nat) : Int := d + (n : Int) * msPerDay

/-- Subscription.status enum of `models/Subscription.js`. -/
inductive SubStatus
  | active | grace | expired | cancelled
deriving DecidableEq, Repr

/-- User.status enum of `models/User.js`. -/
inductive UserStatus
  | active | expired | pending | inactive | blocked
deriving DecidableEq, Repr

/-- `reminderFlags` sub-document of `models/Subscription.js`. -/
structure ReminderFlags where
  day7 : Bool
  day3 : Bool
  day1 : Bool
  day0 : Bool
deriving DecidableEq, Repr

/-- `graceNotifications` sub-document of `models/Subscription.js`. -/
structure GraceNotifications where
  day1 : Bool
  day2 : Bool
  day3 : Bool
deriving DecidableEq, Repr

/-- A Subscription document.  `id` models the unique Mongo `_id`. -/
structure Subscription where
  id : Nat
  telegramId : Nat
  planName : String
  durationDays : Nat
  startDate : Int
  expiryDate : Int
  status : SubStatus
  reminderFlags : ReminderFlags
  graceDaysUsed : Nat
  graceNotifications : GraceNotifications
  isRenewal : Bool
  approvedBy : Option Nat
  inviteLink : Option String
deriving DecidableEq, Repr

/-- A User document (the fields the lifecycle engine touches). -/
structure User where
  telegramId : Nat
  status : UserStatus
  isBlocked : Bool
  referredBy : Option Nat
  referralBonusApplied : Bool
  graceDaysRemaining : Option Nat
deriving DecidableEq, Repr

/-- Outcome of one `bot.telegram.sendMessage` attempt: success, a 403
blocked-bot error, or any other (transient) error. -/
inductive DeliveryResult
  | delivered | unreachable | transientError
deriving DecidableEq, Repr

/-- Tag for a message sent to a user (text abstracted). -/
inductive MsgTag
  | reminder (daysBefore : Nat)     -- "Subscription Reminder" at a checkpoint
  | graceStarted                    -- "Subscription Expired … grace period"
  | graceEarlyReminder              -- "Grace Period Reminder"
  | graceFinalWarning               -- "Final Warning!"
  | accessRemoved                   -- "Access Removed"
  | rejoinInvite (link : String)    -- "Rejoining Instructions" with invite link
  | referralBonusNote               -- "Referral Bonus!" to the referrer
deriving DecidableEq, Repr

/-- Tag for a log-channel post (text abstracted). -/
inductive ChanMsg
  | graceStarted (uid : Nat)                        -- "Grace Period Started"
  | removedAfterGrace (uid : Nat) (daysOverdue : Int) -- "User Removed After Grace Period"
  | botBlocked (uid : Nat)                          -- "Bot Blocked"
  | expiredRemovedByMonitor (uid : Nat)             -- "Expired User Removed by Monitor"
deriving DecidableEq, Repr

/-- Structured `details` of an `AdminLog` entry.
`gracePeriodExpired d` stands for `{ reason: 'Grace period expired',
daysOverdue: d }`; `recipientBlocked` for
`{ reason: 'Bot blocked by user (403)' }` (the recipient blocked the bot);
`referralBonus u b` for `{ referredUser: u, bonusDays: b }`. -/
inductive AuditReason
  | gracePeriodExpired (daysOverdue : Int)
  | recipientBlocked
  | referralBonus (referredUser : Nat) (bonusDays : Nat)
deriving DecidableEq, Repr

/-- An `AdminLog` document: `{ adminId, actionType, targetUserId, details }`;
`adminId = 0` marks a system action. -/
structure AuditEntry where
  adminId : Nat
  actionType : String
  targetUserId : Nat
  reason : AuditReason
deriving DecidableEq, Repr

/-- External collaborators: per-recipient delivery outcome, invite-link
creation result, and whether a `banChatMember` call succeeds. -/
structure Env where
  deliver : Nat → DeliveryResult
  inviteLinkFor : Nat → Option String
  banOk : Nat → Bool

/-- The persisted + observable state: User and Subscription collections,
the append-only audit log, log-channel posts, recorded delivery attempts,
group membership, and the ban calls issued to the group provider. -/
structure St where
  users : List User
  subs : List Subscription
  audit : List AuditEntry
  chan : List ChanMsg
  sent : List (Nat × MsgTag)
  members : Nat → Bool
  banCalls : List Nat

/-- Record a delivery attempt to a user. -/
def pushSent (st : St) (uid : Nat) (tag : MsgTag) : St :=
  { st with sent := st.sent ++ [(uid, tag)] }

/-- Record a log-channel post (`logToChannel`, which swallows errors). -/
def pushChan (st : St) (m : ChanMsg) : St :=
  { st with chan := st.chan ++ [m] }

/-- Append an `AdminLog.create` entry. -/
def pushAudit (st : St) (e : AuditEntry) : St :=
  { st with audit := st.audit ++ [e] }

/-- `User.findOneAndUpdate({ telegramId: uid }, …)`: update through the
unique `telegramId` index. -/
def updateUser (st : St) (uid : Nat) (f : User → User) : St :=
  { st with users := st.users.map (fun u => if u.telegramId = uid then f u else u) }

/-- `doc.save()` / `findByIdAndUpdate`: write a subscription back through
its unique `_id`. -/
def updateSub (st : St) (i : Nat) (f : Subscription → Subscription) : St :=
  { st with subs := st.subs.map (fun s => if s.id = i then f s else s) }

/-- First user with the given telegramId (`User.findOne({ telegramId })`). -/
def lookupUser (st : St) (tid : Nat) : Option User :=
  st.users.find? (fun u => u.telegramId == tid)

/-- The subscription document with the given `_id`. -/
def lookupSub (st : St) (i : Nat) : Option Subscription :=
  st.subs.find? (fun s => s.id == i)

/-- `handleBlockedUser` of `telegramUtils.js`: mark the user blocked,
write the audit entry, alert the log channel. -/
def handleBlockedUser (st : St) (uid : Nat) : St :=
  let st1 := updateUser st uid (fun u => { u with isBlocked := true, status := .blocked })
  let st2 := pushAudit st1
    { adminId := 0, actionType := "ban_user", targetUserId := uid, reason := .recipientBlocked }
  pushChan st2 (.botBlocked uid)

/-- `safeSend` of `telegramUtils.js`: attempt delivery; on a 403 run the
blocked-user procedure; return whether delivery succeeded. -/
def safeSend (env : Env) (st : St) (uid : Nat) (tag : MsgTag) : St × Bool :=
  let st1 := pushSent st uid tag
  match env.deliver uid with
  | .delivered => (st1, true)
  | .unreachable => (handleBlockedUser st1 uid, false)
  | .transientError => (st1, false)

/-- `banFromGroup`: always issues the `banChatMember` call; membership
changes only if the call succeeds (errors are caught and logged). -/
def banFromGroupSt (env : Env) (st : St) (uid : Nat) : St :=
  let st1 := { st with banCalls := st.banCalls ++ [uid] }
  if env.banOk uid then
    { st1 with members := fun u => if u = uid then false else st1.members u }
  else st1

/-- Reminder checkpoint flag selector (`reminderFlags.${flag}`). -/
inductive RFlag
  | day7 | day3 | day1 | day0
deriving DecidableEq, Repr

/-- Read a reminder flag. -/
def ReminderFlags.get (r : ReminderFlags) : RFlag → Bool
  | .day7 => r.day7
  | .day3 => r.day3
  | .day1 => r.day1
  | .day0 => r.day0

/-- Set a reminder flag. -/
def ReminderFlags.set (r : ReminderFlags) : RFlag → Bool → ReminderFlags
  | .day7, b => { r with day7 := b }
  | .day3, b => { r with day3 := b }
  | .day1, b => { r with day1 := b }
  | .day0, b => { r with day0 := b }

/-- The day window of a reminder checkpoint: `targetStart = addDays(startOfToday(), days)`
through `targetEnd = targetStart` at 23:59:59.999, and the flag gate. -/
abbrev matchesCheckpoint (today : Int) (daysBefore : Nat) (flag : RFlag) (s : Subscription) : Prop :=
  s.status = .active ∧ addDays today daysBefore ≤ s.expiryDate ∧
    s.expiryDate ≤ addDays today daysBefore + msPerDay - 1 ∧ s.reminderFlags.get flag = false

/-- One matched subscription inside a checkpoint loop of `reminderScheduler`:
attempt delivery; only if it succeeded, latch the flag and persist. -/
def reminderStep (env : Env) (daysBefore : Nat) (flag : RFlag) (st : St) (sub : Subscription) : St :=
  if (safeSend env st sub.telegramId (.reminder daysBefore)).2 then
    updateSub (safeSend env st sub.telegramId (.reminder daysBefore)).1 sub.id
      (fun s => { s with reminderFlags := s.reminderFlags.set flag true })
  else (safeSend env st sub.telegramId (.reminder daysBefore)).1

/-- One checkpoint of `reminderScheduler`: query the matching active
subscriptions, then process them in order. -/
def reminderCheckpoint (env : Env) (today : Int) (st : St) (cp : Nat × RFlag) : St :=
  (st.subs.filter (fun s => decide (matchesCheckpoint today cp.1 cp.2 s))).foldl
    (reminderStep env cp.1 cp.2) st

/-- The checkpoint table `[(7,day7),(3,day3),(1,day1),(0,day0)]`. -/
def checkpoints : List (Nat × RFlag) := [(7, .day7), (3, .day3), (1, .day1), (0, .day0)]

/-- `reminderScheduler` of `cronService.js`, for one run with
`today = startOfToday()`. -/
def reminderScheduler (env : Env) (today : Int) (st : St) : St :=
  checkpoints.foldl (reminderCheckpoint env today) st

/-- Entry transition of `gracePeriodHandler`: a still-active subscription
whose `expiryDate < today` moves to `grace`, the user record mirrors to
`expired` with the full grace allowance, the user is messaged, and the
log channel is alerted. -/
def graceEntryStep (env : Env) (graceDays : Nat) (st : St) (sub : Subscription) : St :=
  let st1 := updateSub st sub.id (fun s => { s with status := .grace, graceDaysUsed := 0 })
  let st2 := updateUser st1 sub.telegramId
    (fun u => { u with status := .expired, graceDaysRemaining := some graceDays })
  let st3 := (safeSend env st2 sub.telegramId .graceStarted).1
  pushChan st3 (.graceStarted sub.telegramId)

/-- `daysSinceExpiry = Math.floor((today - sub.expiryDate) / 86400000)`. -/
def daysSinceExpiry (today : Int) (sub : Subscription) : Int :=
  (today - sub.expiryDate).fdiv msPerDay

/-- In-grace processing of one subscription in `gracePeriodHandler`:
terminal removal at `daysSinceExpiry ≥ GRACE_DAYS`, else the final
warning at `GRACE_DAYS - 1`, else the early reminder at day 1. -/
def graceInStep (env : Env) (graceDays : Nat) (today : Int) (st : St) (sub : Subscription) : St :=
  if (graceDays : Int) ≤ daysSinceExpiry today sub then
    pushAudit
      (pushChan
        ((safeSend env
          (updateUser
            (updateSub (banFromGroupSt env st sub.telegramId) sub.id
              (fun s => { s with status := .expired, graceDaysUsed := graceDays }))
            sub.telegramId
            (fun u => { u with status := .expired, graceDaysRemaining := some 0 }))
          sub.telegramId .accessRemoved).1)
        (.removedAfterGrace sub.telegramId (daysSinceExpiry today sub)))
      { adminId := 0, actionType := "ban_user", targetUserId := sub.telegramId,
        reason := .gracePeriodExpired (daysSinceExpiry today sub) }
  else if daysSinceExpiry today sub = (graceDays : Int) - 1 ∧ sub.graceNotifications.day2 = false then
    updateSub (safeSend env st sub.telegramId .graceFinalWarning).1 sub.id
      (fun s => { s with graceNotifications := { s.graceNotifications with day2 := true } })
  else if daysSinceExpiry today sub = 1 ∧ sub.graceNotifications.day1 = false then
    updateSub (safeSend env st sub.telegramId .graceEarlyReminder).1 sub.id
      (fun s => { s with graceNotifications := { s.graceNotifications with day1 := true } })
  else st

/-- The entry sweep of `gracePeriodHandler`: every still-active
subscription with `expiryDate < today` enters grace. -/
def graceEntryPhase (env : Env) (graceDays : Nat) (today : Int) (st : St) : St :=
  (st.subs.filter (fun s => decide (s.status = .active ∧ s.expiryDate < today))).foldl
    (graceEntryStep env graceDays) st

/-- The in-grace sweep of `gracePeriodHandler`: a fresh query of every
`grace` subscription, processed in order. -/
def graceInPhase (env : Env) (graceDays : Nat) (today : Int) (st : St) : St :=
  (st.subs.filter (fun s => decide (s.status = .grace))).foldl
    (graceInStep env graceDays today) st

/-- `gracePeriodHandler` of `cronService.js`: first the entry sweep over
still-active expired subscriptions, then a fresh query of every `grace`
subscription and the in-grace sweep. -/
def gracePeriodHandler (env : Env) (graceDays : Nat) (today : Int) (st : St) : St :=
  graceInPhase env graceDays today (graceEntryPhase env graceDays today st)

/-- Under-provisioned pass of `membershipMonitor`, one active
subscription: if the user is absent from the group, create an invite and,
if that succeeded, store it on the subscription and message the user. -/
def underStep (env : Env) (st : St) (sub : Subscription) : St :=
  if st.members sub.telegramId then st
  else
    match env.inviteLinkFor sub.telegramId with
    | none => st
    | some link =>
        let st1 := updateSub st sub.id (fun s => { s with inviteLink := some link })
        (safeSend env st1 sub.telegramId (.rejoinInvite link)).1

/-- Over-provisioned pass of `membershipMonitor`, one telegramId holding
an expired/cancelled subscription: if still in the group, ban and alert
the log channel. -/
def overStep (env : Env) (st : St) (uid : Nat) : St :=
  if st.members uid then
    pushChan (banFromGroupSt env st uid) (.expiredRemovedByMonitor uid)
  else st

/-- The telegramIds carrying an expired/cancelled subscription — the
over-provisioned query `Subscription.find({status: {$in: [expired,
cancelled]}}).select('telegramId')`. -/
def expiredIdsOf (st : St) : List Nat :=
  (st.subs.filter (fun s => decide (s.status = .expired ∨ s.status = .cancelled))).map
    (fun s => s.telegramId)

/-- `membershipMonitor` of `cronService.js`: re-invite absent active
subscribers, then remove members whose subscription is expired/cancelled. -/
def membershipMonitor (env : Env) (now : Int) (st : St) : St :=
  let activeSubs := st.subs.filter (fun s => decide (s.status = .active ∧ now < s.expiryDate))
  let st1 := activeSubs.foldl (underStep env) st
  (expiredIdsOf st1).foldl (overStep env) st1

/-- Plan snapshot consumed by `createSubscription` (`plan.name`,
`plan.durationDays`; the schema enforces `durationDays ≥ 1`). -/
structure PlanRec where
  name : String
  durationDays : Nat
deriving DecidableEq, Repr

/-- `createSubscription` of `subscriptionService.js`: renew an existing
active/grace subscription in place, extending from
`max(currentExpiry, now)` and resetting every latch, or create a fresh
subscription; either way the user record becomes `active`.  `none`
models the thrown error when the user does not exist. -/
def createSubscription (now : Int) (plan : PlanRec) (adminId : Nat) (tid : Nat) (newId : Nat)
    (st : St) : Option St :=
  match lookupUser st tid with
  | none => none
  | some _user =>
    match st.subs.find? (fun s => decide (s.telegramId = tid ∧ (s.status = .active ∨ s.status = .grace))) with
    | some existingSub =>
        let baseDate := if now < existingSub.expiryDate then existingSub.expiryDate else now
        let newExpiry := addDays baseDate plan.durationDays
        let st1 := updateSub st existingSub.id (fun s =>
          { s with expiryDate := newExpiry, planName := plan.name,
                   durationDays := plan.durationDays, status := .active,
                   approvedBy := some adminId, isRenewal := true, graceDaysUsed := 0,
                   graceNotifications := ⟨false, false, false⟩,
                   reminderFlags := ⟨false, false, false, false⟩ })
        some (updateUser st1 tid (fun u => { u with status := .active, graceDaysRemaining := none }))
    | none =>
        let sub : Subscription :=
          { id := newId, telegramId := tid, planName := plan.name,
            durationDays := plan.durationDays, startDate := now,
            expiryDate := addDays now plan.durationDays, status := .active,
            reminderFlags := ⟨false, false, false, false⟩, graceDaysUsed := 0,
            graceNotifications := ⟨false, false, false⟩, isRenewal := false,
            approvedBy := some adminId, inviteLink := none }
        let st1 : St := { st with subs := st.subs ++ [sub] }
        some (updateUser st1 tid (fun u => { u with status := .active, graceDaysRemaining := none }))

/-- Count of the user's subscriptions with `status ∈ {active, expired}` —
the gate used by `awardReferralBonus`'s `countDocuments`. -/
def countActiveOrExpired (st : St) (tid : Nat) : Nat :=
  (st.subs.filter (fun s => decide (s.telegramId = tid ∧ (s.status = .active ∨ s.status = .expired)))).length

/-- `awardReferralBonus` of `referralService.js`: guards (referred user
exists, has a referrer, bonus not yet applied, at most one
active-or-expired subscription, referrer exists); then extend the
referrer's active unexpired subscription by `bonusDays` and notify them
if one exists; in every non-guarded case latch `referralBonusApplied`
and write the audit entry. -/
def awardReferralBonus (now : Int) (bonusDays : Nat) (tid : Nat) (st : St) : St :=
  match lookupUser st tid with
  | none => st
  | some newUser =>
    match newUser.referredBy with
    | none => st
    | some refTid =>
      if newUser.referralBonusApplied then st
      else if 1 < countActiveOrExpired st tid then st
      else
        match lookupUser st refTid with
        | none => st
        | some _referrer =>
          let st1 :=
            match st.subs.find?
                (fun s => decide (s.telegramId = refTid ∧ s.status = .active ∧ now < s.expiryDate)) with
            | some referrerSub =>
                pushSent
                  (updateSub st referrerSub.id
                    (fun s => { s with expiryDate := addDays referrerSub.expiryDate bonusDays }))
                  refTid .referralBonusNote
            | none => st
          let st2 := updateUser st1 tid (fun u => { u with referralBonusApplied := true })
          pushAudit st2
            { adminId := 0, actionType := "referral_bonus", targetUserId := refTid,
              reason := .referralBonus tid bonusDays }

/-- In-grace processing of one subscription under a possibly failing
persistence layer: the same branch structure as `graceInStep`, but the
`sub.save()` call throws when `saveFails sub.id`.  The returned flag is
`false` when the save threw; the state then holds exactly the effects
performed before the throw (the JS loop body has no try/catch). -/
def graceInStepE (env : Env) (saveFails : Nat → Bool) (graceDays : Nat) (today : Int)
    (st : St) (sub : Subscription) : St × Bool :=
  let d := daysSinceExpiry today sub
  if (graceDays : Int) ≤ d then
    let st1 := banFromGroupSt env st sub.telegramId
    if saveFails sub.id then (st1, false)
    else
      let st2 := updateSub st1 sub.id (fun s => { s with status := .expired, graceDaysUsed := graceDays })
      let st3 := updateUser st2 sub.telegramId
        (fun u => { u with status := .expired, graceDaysRemaining := some 0 })
      let st4 := (safeSend env st3 sub.telegramId .accessRemoved).1
      let st5 := pushChan st4 (.removedAfterGrace sub.telegramId d)
      (pushAudit st5
        { adminId := 0, actionType := "ban_user", targetUserId := sub.telegramId,
          reason := .gracePeriodExpired d }, true)
  else if d = (graceDays : Int) - 1 ∧ sub.graceNotifications.day2 = false then
    let st1 := (safeSend env st sub.telegramId .graceFinalWarning).1
    if saveFails sub.id then (st1, false)
    else
      (updateSub st1 sub.id
        (fun s => { s with graceNotifications := { s.graceNotifications with day2 := true } }), true)
  else if d = 1 ∧ sub.graceNotifications.day1 = false then
    let st1 := (safeSend env st sub.telegramId .graceEarlyReminder).1
    if saveFails sub.id then (st1, false)
    else
      (updateSub st1 sub.id
        (fun s => { s with graceNotifications := { s.graceNotifications with day1 := true } }), true)
  else (st, true)

/-- The in-grace `for` loop of `gracePeriodHandler` under a possibly
failing persistence layer: a thrown save rejects the whole job's promise,
so the remaining candidates are not processed in that run. -/
def graceInLoopE (env : Env) (saveFails : Nat → Bool) (graceDays : Nat) (today : Int) :
    St → List Subscription → St
  | st, [] => st
  | st, sub :: rest =>
      match graceInStepE env saveFails graceDays today st sub with
      | (st1, true) => graceInLoopE env saveFails graceDays today st1 rest
      | (st1, false) => st1

/-- The status of the subscription document with the given `_id`. -/
def subStatusOf (st : St) (i : Nat) : Option SubStatus :=
  (lookupSub st i).map (fun s => s.status)

/-- The expiry date of the subscription with the given `_id` (default 0
when absent; absence is always excluded separately). -/
def subExpiryD (st : St) (i : Nat) : Int :=
  ((lookupSub st i).map (fun s => s.expiryDate)).getD 0

/-! ## Concrete states and environments used by the witnesses -/

/-- Environment whose recipients are all unreachable. -/
def envBlocked : Env :=
  { deliver := fun _ => .unreachable, inviteLinkFor := fun _ => none, banOk := fun _ => true }

/-- Environment where everything succeeds. -/
def envOk : Env :=
  { deliver := fun _ => .delivered, inviteLinkFor := fun u => some (toString u),
    banOk := fun _ => true }

/-- Concrete one-user state for the C8 witness. -/
def stC8 : St :=
  { users := [{ telegramId := 5, status := .active, isBlocked := false, referredBy := none,
                referralBonusApplied := false, graceDaysRemaining := none }],
    subs := [], audit := [], chan := [], sent := [], members := fun _ => false, banCalls := [] }

/-- A default-flag bundle. -/
def noFlags : ReminderFlags := ⟨false, false, false, false⟩

/-- A default grace-notification bundle. -/
def noGrace : GraceNotifications := ⟨false, false, false⟩

/-- A plain user record for witness states. -/
def mkUser (tid : Nat) : User :=
  { telegramId := tid, status := .active, isBlocked := false, referredBy := none,
    referralBonusApplied := false, graceDaysRemaining := none }

/-- A plain subscription record for witness states. -/
def mkSub (i tid : Nat) (stat : SubStatus) (expiry : Int) : Subscription :=
  { id := i, telegramId := tid, planName := "p", durationDays := 30, startDate := 0,
    expiryDate := expiry, status := stat, reminderFlags := noFlags, graceDaysUsed := 0,
    graceNotifications := noGrace, isRenewal := false, approvedBy := none, inviteLink := none }

/-- Concrete state for the C2 witness: one user with one active sub. -/
def stC2 : St :=
  { users := [mkUser 7], subs := [mkSub 0 7 .active (10 * msPerDay)],
    audit := [], chan := [], sent := [], members := fun _ => false, banCalls := [] }

/-- Modelled from the claim's words (spec §4.4): the count of a user's
subscriptions in "terminal-or-active states (active, grace, expired,
cancelled)" — stated for comparison against the code's gate
`countActiveOrExpired`, which ignores `grace` and `cancelled`. -/
def specTerminalOrActiveCount (st : St) (tid : Nat) : Nat :=
  (st.subs.filter (fun s => decide (s.telegramId = tid ∧
    (s.status = .active ∨ s.status = .grace ∨ s.status = .expired ∨ s.status = .cancelled)))).length

/-- A user that was referred by `r`. -/
def userRef (tid r : Nat) : User :=
  { telegramId := tid, status := .active, isBlocked := false, referredBy := some r,
    referralBonusApplied := false, graceDaysRemaining := none }

/-- C4 counterexample state: referred user 1 has a cancelled old
subscription *and* a freshly approved active one (terminal-or-active
count 2); the referrer 2 has an active subscription expiring in 5 days. -/
def stC4 : St :=
  { users := [userRef 1 2, mkUser 2],
    subs := [mkSub 0 1 .cancelled 0, mkSub 1 1 .active (30 * msPerDay),
             mkSub 2 2 .active (5 * msPerDay)],
    audit := [], chan := [], sent := [], members := fun _ => false, banCalls := [] }

/-- C4 witness state: referred user 1 has an expired old subscription and
an active one, so the code's own gate blocks the bonus. -/
def stC4w : St :=
  { users := [userRef 1 2, mkUser 2],
    subs := [mkSub 0 1 .expired 0, mkSub 1 1 .active (30 * msPerDay)],
    audit := [], chan := [], sent := [], members := fun _ => false, banCalls := [] }

/-- C5 witness state: referred user 1 on their first subscription,
referrer 2 with an active subscription. -/
def stC5 : St :=
  { users := [userRef 1 2, mkUser 2],
    subs := [mkSub 1 1 .active (30 * msPerDay), mkSub 2 2 .active (5 * msPerDay)],
    audit := [], chan := [], sent := [], members := fun _ => false, banCalls := [] }

/-- The (id, telegramId, status, expiryDate) projection of the
subscription collection — the part of the state the monitor's queries
depend on. -/
def subProj (st : St) : List (Nat × Nat × SubStatus × Int) :=
  st.subs.map (fun s => (s.id, s.telegramId, s.status, s.expiryDate))

/-- The (id, telegramId) projection of the subscription collection —
invariant under every lifecycle job (documents are never created or
deleted by the jobs, and these two fields are never rewritten). -/
def tidProj (st : St) : List (Nat × Nat) :=
  st.subs.map (fun s => (s.id, s.telegramId))

/-- C9 state: user 1's old subscription is terminal (`expired`) and
retained; user 1 is in the group. -/
def stC9 : St :=
  { users := [mkUser 1], subs := [mkSub 0 1 .expired 0],
    audit := [], chan := [], sent := [], members := fun u => decide (u = 1), banCalls := [] }

/-- The delivery attempts recorded for one recipient. -/
def sentTo (st : St) (uid : Nat) : List (Nat × MsgTag) :=
  st.sent.filter (fun m => m.1 == uid)

/-- C3 witness state: one active subscription expiring exactly 7 days
ahead, day-7 flag unset. -/
def stC3 : St :=
  { users := [mkUser 7], subs := [mkSub 0 7 .active (7 * msPerDay)],
    audit := [], chan := [], sent := [], members := fun _ => true, banCalls := [] }

/-- C10 witness state: one subscription still `active` but three full
days past expiry. -/
def stC10 : St :=
  { users := [mkUser 8], subs := [mkSub 0 8 .active 0],
    audit := [], chan := [], sent := [], members := fun _ => true, banCalls := [] }

/-- C1 witness state: one subscription in `grace`, three days past
expiry, plus an unrelated expired record of the same user. -/
def stC1 : St :=
  { users := [mkUser 9], subs := [mkSub 0 9 .grace 0, mkSub 1 9 .expired (-5 * msPerDay)],
    audit := [], chan := [], sent := [], members := fun _ => true, banCalls := [] }

/-- C7 state: two in-grace subscriptions, both past the grace bound. -/
def stC7 : St :=
  { users := [mkUser 10, mkUser 20],
    subs := [mkSub 0 10 .grace 0, mkSub 1 20 .grace 0],
    audit := [], chan := [], sent := [], members := fun _ => true, banCalls := [] }

/-! ## Generic list/fold lemmas -/

/-- A projection preserved by every step of a fold is preserved by the fold. -/
theorem foldl_proj_const {α β γ : Type} (step : β → α → β) (P : β → γ) (L : List α) (st : β)
    (h : ∀ s, ∀ b ∈ L, P (step s b) = P s) : P (L.foldl step st) = P st := by
  induction L generalizing st with
  | nil => rfl
  | cons a t ih =>
      simp only [List.foldl_cons]
      rw [ih _ (fun s b hb => h s b (List.mem_cons_of_mem _ hb)), h st a (List.mem_cons_self _ _)]

/-- If exactly one element of a duplicate-free fold list acts on a
projection (by `g`) and every other element preserves it, the fold acts
by `g`. -/
theorem foldl_proj_single {α β γ : Type} (step : β → α → β) (P : β → γ) (g : γ → γ)
    (L : List α) (a : α) (st : β) (ha : a ∈ L) (hnd : L.Nodup)
    (hother : ∀ b ∈ L, b ≠ a → ∀ s, P (step s b) = P s)
    (hself : ∀ s, P (step s a) = g (P s)) :
    P (L.foldl step st) = g (P st) := by
  induction L generalizing st with
  | nil => cases ha
  | cons b t ih =>
      simp only [List.foldl_cons]
      rcases List.mem_cons.mp ha with rfl | hat
      · have hnmem : a ∉ t := (List.nodup_cons.mp hnd).1
        rw [foldl_proj_const step P t _
          (fun s c hc => hother c (List.mem_cons_of_mem _ hc) (fun hca => hnmem (hca ▸ hc)) s)]
        exact hself st
      · have hb : b ≠ a := by
          rintro rfl
          exact (List.nodup_cons.mp hnd).1 hat
        have ht : t.Nodup := (List.nodup_cons.mp hnd).2
        have hoth : ∀ c ∈ t, c ≠ a → ∀ s, P (step s c) = P s :=
          fun c hc hcne s => hother c (List.mem_cons_of_mem _ hc) hcne s
        rw [ih (step st b) hat ht hoth, hother b (List.mem_cons_self _ _) hb st]

/-- Membership in a monotone list-valued projection survives a fold. -/
theorem foldl_mem_grow {α β γ : Type} (step : β → α → β) (P : β → List γ) (L : List α)
    (st : β) (x : γ) (h : ∀ s, ∀ b ∈ L, ∀ y ∈ P s, y ∈ P (step s b)) (hx : x ∈ P st) :
    x ∈ P (L.foldl step st) := by
  induction L generalizing st with
  | nil => exact hx
  | cons a t ih =>
      simp only [List.foldl_cons]
      exact ih _ (fun s b hb y hy => h s b (List.mem_cons_of_mem _ hb) y hy)
        (h st a (List.mem_cons_self _ _) x hx)

/-- In a list whose images under `key` are duplicate-free, `find?` by an
element's key returns that element. -/
theorem find?_key_of_mem {α κ : Type} [DecidableEq κ] (key : α → κ) {l : List α} {a : α}
    (ha : a ∈ l) (hnd : (l.map key).Nodup) :
    l.find? (fun x => key x == key a) = some a := by
  induction l with
  | nil => cases ha
  | cons b t ih =>
      rcases List.mem_cons.mp ha with rfl | hat
      · simp [List.find?]
      · have hkey : key b ≠ key a := by
          intro hk
          have : key a ∈ t.map key := List.mem_map_of_mem key hat
          rw [List.map_cons, List.nodup_cons] at hnd
          exact hnd.1 (hk ▸ this)
        have hb : (key b == key a) = false := by simpa using hkey
        simp only [List.find?, hb]
        exact ih hat (by rw [List.map_cons, List.nodup_cons] at hnd; exact hnd.2)

/-- Keys duplicate-free makes elements with equal keys equal. -/
theorem key_inj_of_nodup {α κ : Type} (key : α → κ) {l : List α}
    (hnd : (l.map key).Nodup) {a b : α} (ha : a ∈ l) (hb : b ∈ l) (hk : key a = key b) :
    a = b :=
  List.inj_on_of_nodup_map hnd ha hb hk

/-! ## Frame lemmas for the state operations -/

@[simp] theorem pushSent_users (st : St) (u : Nat) (t : MsgTag) : (pushSent st u t).users = st.users := rfl

@[simp] theorem pushSent_subs (st : St) (u : Nat) (t : MsgTag) : (pushSent st u t).subs = st.subs := rfl

@[simp] theorem pushSent_audit (st : St) (u : Nat) (t : MsgTag) : (pushSent st u t).audit = st.audit := rfl

@[simp] theorem pushSent_chan (st : St) (u : Nat) (t : MsgTag) : (pushSent st u t).chan = st.chan := rfl

@[simp] theorem pushSent_sent (st : St) (u : Nat) (t : MsgTag) :
    (pushSent st u t).sent = st.sent ++ [(u, t)] := rfl

@[simp] theorem pushSent_members (st : St) (u : Nat) (t : MsgTag) : (pushSent st u t).members = st.members := rfl

@[simp] theorem pushSent_banCalls (st : St) (u : Nat) (t : MsgTag) : (pushSent st u t).banCalls = st.banCalls := rfl

@[simp] theorem pushChan_users (st : St) (m : ChanMsg) : (pushChan st m).users = st.users := rfl

@[simp] theorem pushChan_subs (st : St) (m : ChanMsg) : (pushChan st m).subs = st.subs := rfl

@[simp] theorem pushChan_audit (st : St) (m : ChanMsg) : (pushChan st m).audit = st.audit := rfl

@[simp] theorem pushChan_chan (st : St) (m : ChanMsg) : (pushChan st m).chan = st.chan ++ [m] := rfl

@[simp] theorem pushChan_sent (st : St) (m : ChanMsg) : (pushChan st m).sent = st.sent := rfl

@[simp] theorem pushChan_members (st : St) (m : ChanMsg) : (pushChan st m).members = st.members := rfl

@[simp] theorem pushChan_banCalls (st : St) (m : ChanMsg) : (pushChan st m).banCalls = st.banCalls := rfl

@[simp] theorem pushAudit_users (st : St) (e : AuditEntry) : (pushAudit st e).users = st.users := rfl

@[simp] theorem pushAudit_subs (st : St) (e : AuditEntry) : (pushAudit st e).subs = st.subs := rfl

@[simp] theorem pushAudit_audit (st : St) (e : AuditEntry) : (pushAudit st e).audit = st.audit ++ [e] := rfl

@[simp] theorem pushAudit_chan (st : St) (e : AuditEntry) : (pushAudit st e).chan = st.chan := rfl

@[simp] theorem pushAudit_sent (st : St) (e : AuditEntry) : (pushAudit st e).sent = st.sent := rfl

@[simp] theorem pushAudit_members (st : St) (e : AuditEntry) : (pushAudit st e).members = st.members := rfl

@[simp] theorem pushAudit_banCalls (st : St) (e : AuditEntry) : (pushAudit st e).banCalls = st.banCalls := rfl

@[simp] theorem updateUser_subs (st : St) (uid : Nat) (f : User → User) :
    (updateUser st uid f).subs = st.subs := rfl

@[simp] theorem updateUser_audit (st : St) (uid : Nat) (f : User → User) :
    (updateUser st uid f).audit = st.audit := rfl

@[simp] theorem updateUser_chan (st : St) (uid : Nat) (f : User → User) :
    (updateUser st uid f).chan = st.chan := rfl

@[simp] theorem updateUser_sent (st : St) (uid : Nat) (f : User → User) :
    (updateUser st uid f).sent = st.sent := rfl

@[simp] theorem updateUser_members (st : St) (uid : Nat) (f : User → User) :
    (updateUser st uid f).members = st.members := rfl

@[simp] theorem updateUser_banCalls (st : St) (uid : Nat) (f : User → User) :
    (updateUser st uid f).banCalls = st.banCalls := rfl

@[simp] theorem updateSub_users (st : St) (i : Nat) (f : Subscription → Subscription) :
    (updateSub st i f).users = st.users := rfl

@[simp] theorem updateSub_audit (st : St) (i : Nat) (f : Subscription → Subscription) :
    (updateSub st i f).audit = st.audit := rfl

@[simp] theorem updateSub_chan (st : St) (i : Nat) (f : Subscription → Subscription) :
    (updateSub st i f).chan = st.chan := rfl

@[simp] theorem updateSub_sent (st : St) (i : Nat) (f : Subscription → Subscription) :
    (updateSub st i f).sent = st.sent := rfl

@[simp] theorem updateSub_members (st : St) (i : Nat) (f : Subscription → Subscription) :
    (updateSub st i f).members = st.members := rfl

@[simp] theorem updateSub_banCalls (st : St) (i : Nat) (f : Subscription → Subscription) :
    (updateSub st i f).banCalls = st.banCalls := rfl

@[simp] theorem banFromGroupSt_users (env : Env) (st : St) (u : Nat) :
    (banFromGroupSt env st u).users = st.users := by
  unfold banFromGroupSt; split <;> rfl

@[simp] theorem banFromGroupSt_subs (env : Env) (st : St) (u : Nat) :
    (banFromGroupSt env st u).subs = st.subs := by
  unfold banFromGroupSt; split <;> rfl

@[simp] theorem banFromGroupSt_audit (env : Env) (st : St) (u : Nat) :
    (banFromGroupSt env st u).audit = st.audit := by
  unfold banFromGroupSt; split <;> rfl

@[simp] theorem banFromGroupSt_chan (env : Env) (st : St) (u : Nat) :
    (banFromGroupSt env st u).chan = st.chan := by
  unfold banFromGroupSt; split <;> rfl

@[simp] theorem banFromGroupSt_sent (env : Env) (st : St) (u : Nat) :
    (banFromGroupSt env st u).sent = st.sent := by
  unfold banFromGroupSt; split <;> rfl

@[simp] theorem banFromGroupSt_banCalls (env : Env) (st : St) (u : Nat) :
    (banFromGroupSt env st u).banCalls = st.banCalls ++ [u] := by
  unfold banFromGroupSt; split <;> rfl

@[simp] theorem handleBlockedUser_subs (st : St) (u : Nat) :
    (handleBlockedUser st u).subs = st.subs := rfl

@[simp] theorem handleBlockedUser_sent (st : St) (u : Nat) :
    (handleBlockedUser st u).sent = st.sent := rfl

@[simp] theorem handleBlockedUser_members (st : St) (u : Nat) :
    (handleBlockedUser st u).members = st.members := rfl

@[simp] theorem handleBlockedUser_banCalls (st : St) (u : Nat) :
    (handleBlockedUser st u).banCalls = st.banCalls := rfl

@[simp] theorem handleBlockedUser_audit (st : St) (u : Nat) :
    (handleBlockedUser st u).audit = st.audit ++
      [{ adminId := 0, actionType := "ban_user", targetUserId := u,
         reason := .recipientBlocked }] := rfl

@[simp] theorem handleBlockedUser_chan (st : St) (u : Nat) :
    (handleBlockedUser st u).chan = st.chan ++ [.botBlocked u] := rfl

@[simp] theorem safeSend_subs (env : Env) (st : St) (u : Nat) (t : MsgTag) :
    (safeSend env st u t).1.subs = st.subs := by
  unfold safeSend
  cases env.deliver u <;> simp

@[simp] theorem safeSend_members (env : Env) (st : St) (u : Nat) (t : MsgTag) :
    (safeSend env st u t).1.members = st.members := by
  unfold safeSend
  cases env.deliver u <;> simp

@[simp] theorem safeSend_banCalls (env : Env) (st : St) (u : Nat) (t : MsgTag) :
    (safeSend env st u t).1.banCalls = st.banCalls := by
  unfold safeSend
  cases env.deliver u <;> simp

@[simp] theorem safeSend_sent (env : Env) (st : St) (u : Nat) (t : MsgTag) :
    (safeSend env st u t).1.sent = st.sent ++ [(u, t)] := by
  unfold safeSend
  cases env.deliver u <;> simp

/-! ## Lookup lemmas -/

theorem lookupSub_congr {st1 st2 : St} (h : st1.subs = st2.subs) (i : Nat) :
    lookupSub st1 i = lookupSub st2 i := by
  unfold lookupSub; rw [h]

theorem lookupUser_congr {st1 st2 : St} (h : st1.users = st2.users) (tid : Nat) :
    lookupUser st1 tid = lookupUser st2 tid := by
  unfold lookupUser; rw [h]

theorem lookupSub_updateSub (st : St) (i j : Nat) (f : Subscription → Subscription)
    (hf : ∀ s, (f s).id = s.id) :
    lookupSub (updateSub st j f) i
      = (lookupSub st i).map (fun s => if s.id = j then f s else s) := by
  unfold lookupSub updateSub
  rw [List.find?_map]
  have hp : ((fun s : Subscription => s.id == i) ∘ fun s => if s.id = j then f s else s)
      = fun s : Subscription => s.id == i := by
    funext s
    by_cases h : s.id = j <;> simp [h, hf]
  rw [hp]

theorem lookupUser_updateUser (st : St) (uid tid : Nat) (f : User → User)
    (hf : ∀ u, (f u).telegramId = u.telegramId) :
    lookupUser (updateUser st uid f) tid
      = (lookupUser st tid).map (fun u => if u.telegramId = uid then f u else u) := by
  unfold lookupUser updateUser
  rw [List.find?_map]
  have hp : ((fun u : User => u.telegramId == tid) ∘ fun u => if u.telegramId = uid then f u else u)
      = fun u : User => u.telegramId == tid := by
    funext u
    by_cases h : u.telegramId = uid <;> simp [h, hf]
  rw [hp]

theorem lookupSub_of_mem {st : St} {s : Subscription} (hs : s ∈ st.subs)
    (hnd : (st.subs.map (fun x => x.id)).Nodup) : lookupSub st s.id = some s := by
  have := find?_key_of_mem (fun x => x.id) hs hnd
  simpa [lookupSub] using this

theorem lookupUser_tid {st : St} {tid : Nat} {u : User} (h : lookupUser st tid = some u) :
    u.telegramId = tid := by
  have := List.find?_some h
  simpa using this

theorem lookupSub_id {st : St} {i : Nat} {s : Subscription} (h : lookupSub st i = some s) :
    s.id = i := by
  have := List.find?_some h
  simpa using this

theorem lookupSub_mem {st : St} {i : Nat} {s : Subscription} (h : lookupSub st i = some s) :
    s ∈ st.subs :=
  List.mem_of_find?_eq_some h

theorem lookupUser_mem {st : St} {tid : Nat} {u : User} (h : lookupUser st tid = some u) :
    u ∈ st.users :=
  List.mem_of_find?_eq_some h

/-- `lookupUser` through the blocked-user procedure. -/
theorem lookupUser_handleBlockedUser (st : St) (uid tid : Nat) :
    lookupUser (handleBlockedUser st uid) tid
      = (lookupUser st tid).map
          (fun u => if u.telegramId = uid then { u with isBlocked := true, status := .blocked } else u) := by
  have h1 : lookupUser (handleBlockedUser st uid) tid
      = lookupUser (updateUser st uid
          (fun u => { u with isBlocked := true, status := .blocked })) tid := rfl
  rw [h1]
  exact lookupUser_updateUser st uid tid _ (fun _ => rfl)

/-! ## C8 -/

/-- C8: when a delivery attempt reports the recipient unreachable (the
platform's 403 blocked-bot error), `safeSend` runs the shared
blocked-recipient procedure — the user's `isBlocked` becomes true and
status becomes `blocked`, a system audit entry recording the blocked
recipient is appended, and an alert is posted to the log channel — and
the helper reports failure (`false`) to its caller. -/
theorem c8_blocked_recipient_procedure (env : Env) (st : St) (uid : Nat) (tag : MsgTag)
    (h : env.deliver uid = .unreachable) :
    (safeSend env st uid tag).2 = false ∧
    lookupUser (safeSend env st uid tag).1 uid
      = (lookupUser st uid).map (fun u => { u with isBlocked := true, status := .blocked }) ∧
    (safeSend env st uid tag).1.audit
      = st.audit ++ [{ adminId := 0, actionType := "ban_user", targetUserId := uid,
                       reason := .recipientBlocked }] ∧
    (safeSend env st uid tag).1.chan = st.chan ++ [.botBlocked uid] := by
  unfold safeSend
  rw [h]
  refine ⟨rfl, ?_, by simp, by simp⟩
  rw [lookupUser_handleBlockedUser]
  have hps : lookupUser (pushSent st uid tag) uid = lookupUser st uid := rfl
  rw [hps]
  cases hres : lookupUser st uid with
  | none => rfl
  | some u =>
      have htid : u.telegramId = uid := lookupUser_tid hres
      simp [htid]

theorem c8_witness :
    envBlocked.deliver 5 = .unreachable ∧
    ((safeSend envBlocked stC8 5 .graceStarted).2 = false ∧
     lookupUser (safeSend envBlocked stC8 5 .graceStarted).1 5
       = (lookupUser stC8 5).map (fun u => { u with isBlocked := true, status := .blocked }) ∧
     (safeSend envBlocked stC8 5 .graceStarted).1.audit
       = stC8.audit ++ [{ adminId := 0, actionType := "ban_user", targetUserId := 5,
                          reason := .recipientBlocked }] ∧
     (safeSend envBlocked stC8 5 .graceStarted).1.chan = stC8.chan ++ [.botBlocked 5]) :=
  ⟨rfl, c8_blocked_recipient_procedure envBlocked stC8 5 .graceStarted rfl⟩

/-! ## C2 -/

/-- C2: for a user holding a subscription with status `active` or
`grace`, approving a plan renews that subscription in place (the approval
succeeds, no record is added) and the resulting `expiryDate` is at least
`max(previous expiryDate, now)` — a renewal never shortens the remaining
validity.  (`s0` is the stored active/grace subscription located by the
renewal query.) -/
theorem c2_renewal_extends (now : Int) (plan : PlanRec) (adminId tid newId : Nat) (st : St)
    (user : User) (s0 : Subscription)
    (huser : lookupUser st tid = some user)
    (hsub : st.subs.find? (fun s =>
      decide (s.telegramId = tid ∧ (s.status = .active ∨ s.status = .grace))) = some s0)
    (hnd : (st.subs.map (fun x => x.id)).Nodup) :
    (createSubscription now plan adminId tid newId st).isSome = true ∧
    ((createSubscription now plan adminId tid newId st).getD st).subs.length = st.subs.length ∧
    subStatusOf ((createSubscription now plan adminId tid newId st).getD st) s0.id = some .active ∧
    s0.expiryDate ≤ subExpiryD ((createSubscription now plan adminId tid newId st).getD st) s0.id ∧
    now ≤ subExpiryD ((createSubscription now plan adminId tid newId st).getD st) s0.id := by
  have hmem : s0 ∈ st.subs := List.mem_of_find?_eq_some hsub
  have hlk : lookupSub st s0.id = some s0 := lookupSub_of_mem hmem hnd
  simp only [createSubscription, huser, hsub]
  simp only [Option.isSome_some, Option.getD_some]
  set f : Subscription → Subscription := fun s =>
    { s with expiryDate := addDays (if now < s0.expiryDate then s0.expiryDate else now) plan.durationDays,
             planName := plan.name, durationDays := plan.durationDays, status := .active,
             approvedBy := some adminId, isRenewal := true, graceDaysUsed := 0,
             graceNotifications := ⟨false, false, false⟩,
             reminderFlags := ⟨false, false, false, false⟩ } with hfdef
  have hlk2 : lookupSub (updateUser (updateSub st s0.id f) tid
      (fun u => { u with status := .active, graceDaysRemaining := none })) s0.id
      = some (f s0) := by
    have h1 : lookupSub (updateUser (updateSub st s0.id f) tid
        (fun u => { u with status := .active, graceDaysRemaining := none })) s0.id
        = lookupSub (updateSub st s0.id f) s0.id := rfl
    rw [h1, lookupSub_updateSub st s0.id s0.id f (fun s => rfl), hlk]
    simp
  have hexp : subExpiryD (updateUser (updateSub st s0.id f) tid
      (fun u => { u with status := .active, graceDaysRemaining := none })) s0.id
      = addDays (if now < s0.expiryDate then s0.expiryDate else now) plan.durationDays := by
    rw [subExpiryD, hlk2]
    simp [hfdef]
  have h0 : (0 : Int) ≤ (plan.durationDays : Int) * 86400000 := by positivity
  refine ⟨trivial, ?_, ?_, ?_, ?_⟩
  · simp [updateUser, updateSub]
  · simp [subStatusOf, hlk2, hfdef]
  · rw [hexp]
    simp only [addDays, msPerDay]
    split <;> omega
  · rw [hexp]
    simp only [addDays, msPerDay]
    split <;> omega

theorem c2_witness :
    (lookupUser stC2 7 = some (mkUser 7) ∧
     stC2.subs.find? (fun s =>
       decide (s.telegramId = 7 ∧ (s.status = .active ∨ s.status = .grace)))
       = some (mkSub 0 7 .active (10 * msPerDay)) ∧
     (stC2.subs.map (fun x => x.id)).Nodup) ∧
    ((createSubscription 0 ⟨"q", 30⟩ 9 7 1 stC2).isSome = true ∧
     ((createSubscription 0 ⟨"q", 30⟩ 9 7 1 stC2).getD stC2).subs.length = stC2.subs.length ∧
     subStatusOf ((createSubscription 0 ⟨"q", 30⟩ 9 7 1 stC2).getD stC2) (mkSub 0 7 .active (10 * msPerDay)).id
       = some .active ∧
     (mkSub 0 7 .active (10 * msPerDay)).expiryDate
       ≤ subExpiryD ((createSubscription 0 ⟨"q", 30⟩ 9 7 1 stC2).getD stC2) (mkSub 0 7 .active (10 * msPerDay)).id ∧
     (0 : Int)
       ≤ subExpiryD ((createSubscription 0 ⟨"q", 30⟩ 9 7 1 stC2).getD stC2) (mkSub 0 7 .active (10 * msPerDay)).id) :=
  ⟨⟨by decide, by decide, by decide⟩,
    c2_renewal_extends 0 ⟨"q", 30⟩ 9 7 1 stC2 (mkUser 7) (mkSub 0 7 .active (10 * msPerDay))
      (by decide) (by decide) (by decide)⟩

/-! ## C4 and C5 -/

/-- `awardReferralBonus` is a no-op once `referralBonusApplied` is set. -/
theorem award_noop_of_applied (now : Int) (b tid : Nat) (st : St) (u : User)
    (hu : lookupUser st tid = some u) (hflag : u.referralBonusApplied = true) :
    awardReferralBonus now b tid st = st := by
  simp only [awardReferralBonus, hu]
  cases href : u.referredBy with
  | none => rfl
  | some r => simp [hflag]

/-- C4 counterexample: in `stC4` the referred user's terminal-or-active
count (per the claim's wording, including `cancelled`) is 2, yet one run
of the bonus awarder still extends the referrer's subscription from
day 5 to day 8 and latches `referralBonusApplied` — the code's gate
counts only `active`/`expired` subscriptions, so the claim's "no bonus
for any additional terminal-or-active subscription" is false. -/
theorem c4_counterexample :
    specTerminalOrActiveCount stC4 1 = 2 ∧
    subExpiryD stC4 2 = 5 * msPerDay ∧
    subExpiryD (awardReferralBonus 0 3 1 stC4) 2 = 8 * msPerDay ∧
    (lookupUser (awardReferralBonus 0 3 1 stC4) 1).map (fun u => u.referralBonusApplied)
      = some true := by
  refine ⟨by decide, by decide, by decide, by decide⟩

/-- C4 (amended): the gate counts only the user's subscriptions with
status `active` or `expired` (ignoring `grace` and `cancelled`), and the
bonus rule fires only when that count is at most one: for a referred,
not-yet-awarded user with two or more active-or-expired subscriptions
the awarder leaves the state completely unchanged. -/
theorem c4_amended_gate (now : Int) (bonusDays tid : Nat) (st : St) (u : User) (r : Nat)
    (hu : lookupUser st tid = some u)
    (href : u.referredBy = some r)
    (hflag : u.referralBonusApplied = false)
    (hcount : 2 ≤ countActiveOrExpired st tid) :
    awardReferralBonus now bonusDays tid st = st := by
  have hlt : 1 < countActiveOrExpired st tid := by omega
  simp [awardReferralBonus, hu, href, hflag, hlt]

theorem c4_witness :
    (lookupUser stC4w 1 = some (userRef 1 2) ∧
     (userRef 1 2).referredBy = some 2 ∧
     (userRef 1 2).referralBonusApplied = false ∧
     2 ≤ countActiveOrExpired stC4w 1) ∧
    awardReferralBonus 0 3 1 stC4w = stC4w :=
  ⟨⟨by decide, by decide, by decide, by decide⟩,
    c4_amended_gate 0 3 1 stC4w (userRef 1 2) 2 (by decide) (by decide) (by decide) (by decide)⟩

/-- C5: for a referred, not-yet-awarded user passing the
first-subscription gate whose referrer record exists, one run of the
bonus awarder sets `referralBonusApplied` to true and appends the
referral-bonus audit entry — whether or not an active unexpired referrer
subscription was found — and a second run on the result changes nothing,
so the flag transitions false→true at most once however often the
approval workflow runs. -/
theorem c5_bonus_latched_once (now : Int) (bonusDays tid : Nat) (st : St) (u : User) (r : Nat)
    (ru : User)
    (hu : lookupUser st tid = some u)
    (href : u.referredBy = some r)
    (hflag : u.referralBonusApplied = false)
    (hcount : countActiveOrExpired st tid ≤ 1)
    (hr : lookupUser st r = some ru) :
    (lookupUser (awardReferralBonus now bonusDays tid st) tid).map
        (fun x => x.referralBonusApplied) = some true ∧
    (awardReferralBonus now bonusDays tid st).audit
      = st.audit ++ [{ adminId := 0, actionType := "referral_bonus", targetUserId := r,
                       reason := .referralBonus tid bonusDays }] ∧
    awardReferralBonus now bonusDays tid (awardReferralBonus now bonusDays tid st)
      = awardReferralBonus now bonusDays tid st := by
  have htid : u.telegramId = tid := lookupUser_tid hu
  have hnlt : ¬ (1 < countActiveOrExpired st tid) := by omega
  have hmain : (lookupUser (awardReferralBonus now bonusDays tid st) tid).map
        (fun x => x.referralBonusApplied) = some true ∧
      (awardReferralBonus now bonusDays tid st).audit
        = st.audit ++ [{ adminId := 0, actionType := "referral_bonus", targetUserId := r,
                         reason := .referralBonus tid bonusDays }] := by
    simp only [awardReferralBonus, hu, href, hflag, hnlt, if_false, ite_false, hr]
    cases hfind : st.subs.find?
        (fun s => decide (s.telegramId = r ∧ s.status = .active ∧ now < s.expiryDate)) with
    | none =>
        constructor
        · show Option.map (fun x => x.referralBonusApplied)
            (lookupUser (pushAudit (updateUser st tid
                (fun x => { x with referralBonusApplied := true }))
              { adminId := 0, actionType := "referral_bonus", targetUserId := r,
                reason := .referralBonus tid bonusDays }) tid) = some true
          have h1 : lookupUser (pushAudit (updateUser st tid
              (fun x => { x with referralBonusApplied := true }))
              { adminId := 0, actionType := "referral_bonus", targetUserId := r,
                reason := .referralBonus tid bonusDays }) tid
              = lookupUser (updateUser st tid
                  (fun x => { x with referralBonusApplied := true })) tid := rfl
          rw [h1, lookupUser_updateUser st tid tid (fun x => { x with referralBonusApplied := true }) (fun _ => rfl), hu]
          simp [htid]
        · show (pushAudit (updateUser st tid
              (fun x => { x with referralBonusApplied := true }))
              { adminId := 0, actionType := "referral_bonus", targetUserId := r,
                reason := .referralBonus tid bonusDays }).audit
              = st.audit ++ [{ adminId := 0, actionType := "referral_bonus", targetUserId := r,
                               reason := .referralBonus tid bonusDays }]
          simp
    | some rsub =>
        constructor
        · show Option.map (fun x => x.referralBonusApplied)
            (lookupUser (pushAudit (updateUser
                (pushSent (updateSub st rsub.id
                  (fun s => { s with expiryDate := addDays rsub.expiryDate bonusDays }))
                  r .referralBonusNote) tid
                (fun x => { x with referralBonusApplied := true }))
              { adminId := 0, actionType := "referral_bonus", targetUserId := r,
                reason := .referralBonus tid bonusDays }) tid) = some true
          have h1 : lookupUser (pushAudit (updateUser
              (pushSent (updateSub st rsub.id
                (fun s => { s with expiryDate := addDays rsub.expiryDate bonusDays }))
                r .referralBonusNote) tid
              (fun x => { x with referralBonusApplied := true }))
              { adminId := 0, actionType := "referral_bonus", targetUserId := r,
                reason := .referralBonus tid bonusDays }) tid
              = lookupUser (updateUser
                  (pushSent (updateSub st rsub.id
                    (fun s => { s with expiryDate := addDays rsub.expiryDate bonusDays }))
                    r .referralBonusNote) tid
                  (fun x => { x with referralBonusApplied := true })) tid := rfl
          rw [h1, lookupUser_updateUser _ tid tid (fun x => { x with referralBonusApplied := true }) (fun _ => rfl)]
          have h2 : lookupUser (pushSent (updateSub st rsub.id
              (fun s => { s with expiryDate := addDays rsub.expiryDate bonusDays }))
              r .referralBonusNote) tid = lookupUser st tid := rfl
          rw [h2, hu]
          simp [htid]
        · show (pushAudit (updateUser
              (pushSent (updateSub st rsub.id
                (fun s => { s with expiryDate := addDays rsub.expiryDate bonusDays }))
                r .referralBonusNote) tid
              (fun x => { x with referralBonusApplied := true }))
              { adminId := 0, actionType := "referral_bonus", targetUserId := r,
                reason := .referralBonus tid bonusDays }).audit
              = st.audit ++ [{ adminId := 0, actionType := "referral_bonus", targetUserId := r,
                               reason := .referralBonus tid bonusDays }]
          simp
  refine ⟨hmain.1, hmain.2, ?_⟩
  rcases hopt : lookupUser (awardReferralBonus now bonusDays tid st) tid with _ | u2
  · rw [hopt] at hmain
    simp at hmain
  · have hflag2 : u2.referralBonusApplied = true := by
      rw [hopt] at hmain
      simpa using hmain.1
    exact award_noop_of_applied now bonusDays tid _ u2 hopt hflag2

theorem c5_witness :
    (lookupUser stC5 1 = some (userRef 1 2) ∧
     (userRef 1 2).referredBy = some 2 ∧
     (userRef 1 2).referralBonusApplied = false ∧
     countActiveOrExpired stC5 1 ≤ 1 ∧
     lookupUser stC5 2 = some (mkUser 2)) ∧
    ((lookupUser (awardReferralBonus 0 3 1 stC5) 1).map
        (fun x => x.referralBonusApplied) = some true ∧
     (awardReferralBonus 0 3 1 stC5).audit
       = stC5.audit ++ [{ adminId := 0, actionType := "referral_bonus", targetUserId := 2,
                          reason := .referralBonus 1 3 }] ∧
     awardReferralBonus 0 3 1 (awardReferralBonus 0 3 1 stC5)
       = awardReferralBonus 0 3 1 stC5) :=
  ⟨⟨by decide, by decide, by decide, by decide, by decide⟩,
    c5_bonus_latched_once 0 3 1 stC5 (userRef 1 2) 2 (mkUser 2)
      (by decide) (by decide) (by decide) (by decide) (by decide)⟩

/-! ## C6 and C9 -/

/-- The under-provisioned pass never changes group membership (invites do
not add members; only joining does, outside the run). -/
theorem underStep_members (env : Env) (st : St) (s : Subscription) :
    (underStep env st s).members = st.members := by
  unfold underStep
  split
  · rfl
  · cases h : env.inviteLinkFor s.telegramId with
    | none => rfl
    | some link => simp

/-- The under-provisioned pass only rewrites `inviteLink`, so the
monitor-relevant projection of the subscriptions is unchanged. -/
theorem subProj_underStep (env : Env) (st : St) (s : Subscription) :
    subProj (underStep env st s) = subProj st := by
  unfold underStep
  split
  · rfl
  · cases h : env.inviteLinkFor s.telegramId with
    | none => rfl
    | some link =>
        have hsubs : ((safeSend env (updateSub st s.id (fun x => { x with inviteLink := some link }))
            s.telegramId (.rejoinInvite link)).1).subs
            = (updateSub st s.id (fun x => { x with inviteLink := some link })).subs := by
          simp
        unfold subProj
        rw [hsubs]
        show ((st.subs.map (fun x => if x.id = s.id then { x with inviteLink := some link } else x)).map
          (fun x => (x.id, x.telegramId, x.status, x.expiryDate))) = _
        rw [List.map_map]
        apply List.map_congr_left
        intro x _
        by_cases hx : x.id = s.id <;> simp [hx]

/-- The over-provisioned pass does not touch the subscriptions. -/
theorem subProj_overStep (env : Env) (st : St) (u : Nat) :
    subProj (overStep env st u) = subProj st := by
  unfold overStep
  split
  · unfold subProj
    simp
  · rfl

/-- Effect of one over-provisioned step on the membership function. -/
theorem overStep_members (env : Env) (st : St) (a u : Nat) :
    (overStep env st a).members u = (st.members u && !((u == a) && env.banOk a)) := by
  unfold overStep banFromGroupSt
  by_cases hm : st.members a = true
  · simp only [hm, if_true]
    by_cases hb : env.banOk a
    · simp only [hb, if_true, pushChan_members]
      by_cases hu : u = a
      · subst hu
        simp [hm, hb]
      · simp [hu]
    · have hb' : env.banOk a = false := by simpa using hb
      simp only [hb', Bool.false_eq_true, if_false, pushChan_members]
      simp [hb']
  · have hm' : st.members a = false := by simpa using hm
    simp only [hm', Bool.false_eq_true, if_false]
    by_cases hu : u = a
    · subst hu
      simp [hm']
    · simp [hu]

/-- Membership after folding the over-provisioned pass over a list of
telegramIds. -/
theorem overFold_members (env : Env) (E : List Nat) (st : St) (u : Nat) :
    (E.foldl (overStep env) st).members u
      = (st.members u && !(decide (u ∈ E) && env.banOk u)) := by
  induction E generalizing st with
  | nil => simp
  | cons a t ih =>
      simp only [List.foldl_cons]
      rw [ih, overStep_members]
      by_cases hu : u = a
      · subst hu
        cases hb : env.banOk u <;> cases hm : st.members u <;> simp [hb, hm]
      · have hne : (u == a) = false := by simpa using hu
        simp [List.mem_cons, hu, hne]

/-- The membership monitor leaves the monitor-relevant subscription
projection unchanged. -/
theorem subProj_membershipMonitor (env : Env) (now : Int) (st : St) :
    subProj (membershipMonitor env now st) = subProj st := by
  unfold membershipMonitor
  rw [foldl_proj_const (overStep env) subProj _ _ (fun s b _ => subProj_overStep env s b)]
  exact foldl_proj_const (underStep env) subProj _ _ (fun s b _ => subProj_underStep env s b)

/-- Filtering a mapped list is mapping the filtered list. -/
theorem filterOfMap {α β : Type} (f : α → β) (p : β → Bool) (l : List α) :
    (l.map f).filter p = (l.filter (fun a => p (f a))).map f := by
  induction l with
  | nil => rfl
  | cons a t ih =>
      simp only [List.map_cons, List.filter_cons]
      cases h : p (f a)
      · simpa [h] using ih
      · simp [h, ih]

/-- `expiredIdsOf` only depends on the `subProj` projection. -/
theorem expiredIdsOf_eq_of_subProj {st1 st2 : St} (h : subProj st1 = subProj st2) :
    expiredIdsOf st1 = expiredIdsOf st2 := by
  have key : ∀ st : St, expiredIdsOf st
      = ((subProj st).filter (fun q => decide (q.2.2.1 = SubStatus.expired ∨ q.2.2.1 = SubStatus.cancelled))).map
          (fun q => q.2.1) := by
    intro st
    unfold expiredIdsOf subProj
    rw [filterOfMap]
    rw [List.map_map]
    rfl
  rw [key st1, key st2, h]

/-- Membership after one full monitor run. -/
theorem members_membershipMonitor (env : Env) (now : Int) (st : St) (u : Nat) :
    (membershipMonitor env now st).members u
      = (st.members u && !(decide (u ∈ expiredIdsOf st) && env.banOk u)) := by
  unfold membershipMonitor
  rw [overFold_members]
  have hm : ((st.subs.filter (fun s => decide (s.status = .active ∧ now < s.expiryDate))).foldl
      (underStep env) st).members = st.members :=
    foldl_proj_const (underStep env) (fun s => s.members) _ _ (fun s b _ => underStep_members env s b)
  have hsp : subProj ((st.subs.filter (fun s => decide (s.status = .active ∧ now < s.expiryDate))).foldl
      (underStep env) st) = subProj st :=
    foldl_proj_const (underStep env) subProj _ _ (fun s b _ => subProj_underStep env s b)
  rw [hm, expiredIdsOf_eq_of_subProj hsp]

/-- C6: membership reconciliation is idempotent in effect — a second run
of the monitor (even at a later time `now2`) leaves group membership
exactly where the first run put it, for every starting state and
environment: repeated runs converge to a single fixed end state of
membership after one run. -/
theorem c6_reconciler_idempotent (env : Env) (now1 now2 : Int) (st : St) :
    (membershipMonitor env now2 (membershipMonitor env now1 st)).members
      = (membershipMonitor env now1 st).members := by
  funext u
  rw [members_membershipMonitor, members_membershipMonitor]
  rw [expiredIdsOf_eq_of_subProj (subProj_membershipMonitor env now1 st)]
  rw [Bool.and_assoc, Bool.and_self]

/-- C9: a reachable state in which the over-provisioned pass removes a
still-entitled user.  Starting from a retained terminal (`expired`)
subscription for user 1 who is in the group, re-approval
(`createSubscription`) creates a *new* active record (the old terminal
record stays); the monitor's over-provisioned pass, keyed by the old
record's telegramId, then bans user 1 even though they hold an active
subscription whose expiry is in the future. -/
theorem c9_monitor_removes_entitled :
    (createSubscription 0 ⟨"p", 30⟩ 9 1 1 stC9).isSome = true ∧
    subStatusOf ((createSubscription 0 ⟨"p", 30⟩ 9 1 1 stC9).getD stC9) 1 = some .active ∧
    (0 : Int) < subExpiryD ((createSubscription 0 ⟨"p", 30⟩ 9 1 1 stC9).getD stC9) 1 ∧
    ((createSubscription 0 ⟨"p", 30⟩ 9 1 1 stC9).getD stC9).members 1 = true ∧
    (membershipMonitor envOk 0 ((createSubscription 0 ⟨"p", 30⟩ 9 1 1 stC9).getD stC9)).members 1
      = false ∧
    1 ∈ (membershipMonitor envOk 0 ((createSubscription 0 ⟨"p", 30⟩ 9 1 1 stC9).getD stC9)).banCalls := by
  refine ⟨by decide, by decide, by decide, by decide, by decide, by decide⟩

/-! ## Invariant-carrying fold lemmas -/

/-- `foldl_proj_const` with an invariant carried along the fold. -/
theorem foldl_const_inv {α β γ : Type} (step : β → α → β) (Inv : β → Prop) (P : β → γ)
    (L : List α) (st : β)
    (hInv : ∀ s, Inv s → ∀ b ∈ L, Inv (step s b))
    (hP : ∀ s, Inv s → ∀ b ∈ L, P (step s b) = P s)
    (hst : Inv st) : P (L.foldl step st) = P st := by
  induction L generalizing st with
  | nil => rfl
  | cons a t ih =>
      simp only [List.foldl_cons]
      rw [ih (step st a) (fun s hs b hb => hInv s hs b (List.mem_cons_of_mem _ hb))
            (fun s hs b hb => hP s hs b (List.mem_cons_of_mem _ hb))
            (hInv st hst a (List.mem_cons_self _ _))]
      exact hP st hst a (List.mem_cons_self _ _)

/-- The invariant survives a fold. -/
theorem foldl_inv {α β : Type} (step : β → α → β) (Inv : β → Prop) (L : List α) (st : β)
    (hInv : ∀ s, Inv s → ∀ b ∈ L, Inv (step s b)) (hst : Inv st) : Inv (L.foldl step st) := by
  induction L generalizing st with
  | nil => exact hst
  | cons a t ih =>
      simp only [List.foldl_cons]
      exact ih (step st a) (fun s hs b hb => hInv s hs b (List.mem_cons_of_mem _ hb))
        (hInv st hst a (List.mem_cons_self _ _))

/-- Tracking a projection through a duplicate-free fold in which exactly
one element `a` transforms it (from value `v` to value `w`) and every
other element preserves it, under an invariant. -/
theorem foldl_single_track {α β γ : Type} (step : β → α → β) (Inv : β → Prop) (P : β → γ)
    (v w : γ) (L : List α) (a : α) (st : β) (ha : a ∈ L) (hnd : L.Nodup)
    (hInv : ∀ s, Inv s → ∀ b ∈ L, Inv (step s b))
    (hother : ∀ s, Inv s → ∀ b ∈ L, b ≠ a → P (step s b) = P s)
    (hself : ∀ s, Inv s → P s = v → P (step s a) = w)
    (hst : Inv st) (hv : P st = v) : P (L.foldl step st) = w := by
  induction L generalizing st with
  | nil => cases ha
  | cons b t ih =>
      simp only [List.foldl_cons]
      rcases List.mem_cons.mp ha with rfl | hat
      · have hna : a ∉ t := (List.nodup_cons.mp hnd).1
        have hconst : P (t.foldl step (step st a)) = P (step st a) :=
          foldl_const_inv step Inv P t (step st a)
            (fun s hs c hc => hInv s hs c (List.mem_cons_of_mem _ hc))
            (fun s hs c hc => hother s hs c (List.mem_cons_of_mem _ hc) (fun h => hna (h ▸ hc)))
            (hInv st hst a (List.mem_cons_self _ _))
        rw [hconst]
        exact hself st hst hv
      · have hbna : b ≠ a := fun h => (List.nodup_cons.mp hnd).1 (h ▸ hat)
        exact ih (step st b) hat (List.nodup_cons.mp hnd).2
          (fun s hs c hc => hInv s hs c (List.mem_cons_of_mem _ hc))
          (fun s hs c hc hcne => hother s hs c (List.mem_cons_of_mem _ hc) hcne)
          (hInv st hst b (List.mem_cons_self _ _))
          ((hother st hst b (List.mem_cons_self _ _) hbna).trans hv)

/-! ## Reminder-engine lemmas -/

/-- `lookupSub` at a different `_id` is unchanged by `updateSub`. -/
theorem lookupSub_updateSub_ne (st : St) (i j : Nat) (f : Subscription → Subscription)
    (hf : ∀ s, (f s).id = s.id) (hne : i ≠ j) :
    lookupSub (updateSub st j f) i = lookupSub st i := by
  rw [lookupSub_updateSub st i j f hf]
  cases h : lookupSub st i with
  | none => rfl
  | some s =>
      have : s.id = i := lookupSub_id h
      simp [this, hne]

/-- `subProj` only depends on the subscription list. -/
theorem subProj_congr {st1 st2 : St} (h : st1.subs = st2.subs) : subProj st1 = subProj st2 := by
  unfold subProj
  rw [h]

/-- `updateSub` with a field update preserving the query-relevant fields
preserves `subProj`. -/
theorem subProj_updateSub (st : St) (i : Nat) (f : Subscription → Subscription)
    (hf : ∀ s, (f s).id = s.id ∧ (f s).telegramId = s.telegramId ∧ (f s).status = s.status ∧
      (f s).expiryDate = s.expiryDate) :
    subProj (updateSub st i f) = subProj st := by
  show (st.subs.map fun s => if s.id = i then f s else s).map _ = _
  rw [List.map_map]
  apply List.map_congr_left
  intro x _
  by_cases hx : x.id = i <;>
    simp [hx, (hf x).1, (hf x).2.1, (hf x).2.2.1, (hf x).2.2.2]

/-- The boolean `safeSend` returns is exactly "delivery succeeded". -/
theorem safeSend_snd (env : Env) (st : St) (u : Nat) (t : MsgTag) :
    (safeSend env st u t).2 = decide (env.deliver u = .delivered) := by
  unfold safeSend
  cases h : env.deliver u <;> simp

/-- Every reminder step records exactly one delivery attempt. -/
theorem reminderStep_sent (env : Env) (d : Nat) (fl : RFlag) (s : St) (b : Subscription) :
    (reminderStep env d fl s b).sent = s.sent ++ [(b.telegramId, .reminder d)] := by
  unfold reminderStep
  split <;> simp

/-- A reminder step only rewrites reminder flags, so the monitor-relevant
projection is unchanged. -/
theorem subProj_reminderStep (env : Env) (d : Nat) (fl : RFlag) (s : St) (b : Subscription) :
    subProj (reminderStep env d fl s b) = subProj s := by
  unfold reminderStep
  split
  · rw [subProj_updateSub (safeSend env s b.telegramId (.reminder d)).1 b.id
      (fun x => { x with reminderFlags := x.reminderFlags.set fl true }) (fun x => ⟨rfl, rfl, rfl, rfl⟩)]
    exact subProj_congr (safeSend_subs env s b.telegramId (.reminder d))
  · exact subProj_congr (safeSend_subs env s b.telegramId (.reminder d))

/-- A reminder step for another subscription does not touch this one. -/
theorem reminderStep_lookup_ne (env : Env) (d : Nat) (fl : RFlag) (s : St) (b : Subscription)
    (j : Nat) (hne : j ≠ b.id) :
    lookupSub (reminderStep env d fl s b) j = lookupSub s j := by
  unfold reminderStep
  split
  · rw [lookupSub_updateSub_ne (safeSend env s b.telegramId (.reminder d)).1 j b.id
      (fun x => { x with reminderFlags := x.reminderFlags.set fl true }) (fun _ => rfl) hne]
    exact lookupSub_congr (safeSend_subs env s b.telegramId (.reminder d)) j
  · exact lookupSub_congr (safeSend_subs env s b.telegramId (.reminder d)) j

/-- Effect of a reminder step on its own subscription: the flag is
latched exactly when delivery succeeded. -/
theorem reminderStep_lookup_self (env : Env) (d : Nat) (fl : RFlag) (s : St) (b : Subscription) :
    lookupSub (reminderStep env d fl s b) b.id
      = (lookupSub s b.id).map (fun x =>
          if env.deliver b.telegramId = .delivered
          then { x with reminderFlags := x.reminderFlags.set fl true } else x) := by
  unfold reminderStep
  rw [safeSend_snd]
  cases hdel : env.deliver b.telegramId with
  | delivered =>
      simp only [hdel, decide_eq_true_eq, if_true]
      have h1 : lookupSub (updateSub (safeSend env s b.telegramId (.reminder d)).1 b.id
          (fun x => { x with reminderFlags := x.reminderFlags.set fl true })) b.id
          = lookupSub (updateSub s b.id
              (fun x => { x with reminderFlags := x.reminderFlags.set fl true })) b.id := by
        unfold lookupSub updateSub
        rw [show (safeSend env s b.telegramId (.reminder d)).1.subs = s.subs from
          safeSend_subs env s b.telegramId (.reminder d)]
      rw [h1, lookupSub_updateSub s b.id b.id
        (fun x => { x with reminderFlags := x.reminderFlags.set fl true }) (fun _ => rfl)]
      cases h : lookupSub s b.id with
      | none => rfl
      | some x =>
          have : x.id = b.id := lookupSub_id h
          simp [this]
  | unreachable =>
      simp only [show decide (DeliveryResult.unreachable = DeliveryResult.delivered) = false from rfl,
        Bool.false_eq_true, if_false]
      rw [lookupSub_congr (safeSend_subs env s b.telegramId (.reminder d)) b.id]
      cases h : lookupSub s b.id with
      | none => rfl
      | some x => simp
  | transientError =>
      simp only [show decide (DeliveryResult.transientError = DeliveryResult.delivered) = false from rfl,
        Bool.false_eq_true, if_false]
      rw [lookupSub_congr (safeSend_subs env s b.telegramId (.reminder d)) b.id]
      cases h : lookupSub s b.id with
      | none => rfl
      | some x => simp

/-- The subscription ids are the first components of `subProj`. -/
theorem idsOf_subProj (st : St) :
    st.subs.map (fun s => s.id) = (subProj st).map (fun q => q.1) := by
  unfold subProj
  rw [List.map_map]
  rfl

/-- Transport of a subscription's query-relevant fields across states
with equal `subProj`. -/
theorem subProj_mem {st1 st2 : St} (h : subProj st1 = subProj st2) {b : Subscription}
    (hb : b ∈ st1.subs) :
    ∃ s0 ∈ st2.subs, s0.id = b.id ∧ s0.telegramId = b.telegramId ∧ s0.status = b.status ∧
      s0.expiryDate = b.expiryDate := by
  have hmem : (b.id, b.telegramId, b.status, b.expiryDate) ∈ subProj st1 :=
    List.mem_map_of_mem _ hb
  rw [h] at hmem
  rcases List.mem_map.mp hmem with ⟨s0, hs0, heq⟩
  simp only [Prod.mk.injEq] at heq
  exact ⟨s0, hs0, heq.1, heq.2.1, heq.2.2.1, heq.2.2.2⟩

/-- The per-day reminder windows are pairwise disjoint. -/
theorem window_disjoint {today e : Int} {d d' : Nat} (hne : d ≠ d')
    (h1 : addDays today d ≤ e) (h2 : e ≤ addDays today d + msPerDay - 1)
    (h3 : addDays today d' ≤ e) (h4 : e ≤ addDays today d' + msPerDay - 1) : False := by
  unfold addDays msPerDay at h1 h2 h3 h4
  have hcast : (d : Int) ≠ (d' : Int) := by exact_mod_cast hne
  omega

/-- Distinct checkpoints have distinct day offsets. -/
theorem checkpoint_days_inj :
    ∀ cp ∈ checkpoints, ∀ cp' ∈ checkpoints, cp ≠ cp' → cp.1 ≠ cp'.1 := by
  decide

/-! ## C3 -/

/-- Setting a reminder flag then reading it back. -/
theorem ReminderFlags.get_set_self (r : ReminderFlags) (fl : RFlag) (b : Bool) :
    (r.set fl b).get fl = b := by
  cases fl <;> rfl

/-- `subProj` is unchanged by a whole reminder checkpoint. -/
theorem subProj_reminderCheckpoint (env : Env) (today : Int) (s : St) (cp : Nat × RFlag) :
    subProj (reminderCheckpoint env today s cp) = subProj s :=
  foldl_proj_const _ subProj _ s (fun s2 b _ => subProj_reminderStep env cp.1 cp.2 s2 b)

/-- `subProj` is unchanged by a whole reminder run. -/
theorem subProj_reminderScheduler (env : Env) (today : Int) (s : St) :
    subProj (reminderScheduler env today s) = subProj s :=
  foldl_proj_const _ subProj _ s (fun s2 cp _ => subProj_reminderCheckpoint env today s2 cp)

/-- Ids duplicate-freeness transports along equal `subProj`. -/
theorem nodup_ids_of_subProj {st1 st2 : St} (h : subProj st1 = subProj st2)
    (hnd : (st2.subs.map (fun x => x.id)).Nodup) : (st1.subs.map (fun x => x.id)).Nodup := by
  rw [idsOf_subProj, h, ← idsOf_subProj]
  exact hnd

/-- A subscription matched at a checkpoint with a different day offset
cannot be `sub`'s record (the day windows are disjoint). -/
theorem matched_ne_sub_id {today : Int} {st : St} {sub : Subscription} {days : Nat} {flag : RFlag}
    (hmem : sub ∈ st.subs) (hnd : (st.subs.map (fun x => x.id)).Nodup)
    (hmatch : matchesCheckpoint today days flag sub)
    {s : St} (hproj : subProj s = subProj st)
    {d' : Nat} (hdne : d' ≠ days) {fl' : RFlag}
    {b : Subscription} (hb : b ∈ s.subs) (hbm : matchesCheckpoint today d' fl' b) :
    b.id ≠ sub.id := by
  intro hid
  rcases subProj_mem hproj hb with ⟨s0, hs0m, hs0id, _, _, hs0exp⟩
  have hs0 : s0 = sub := key_inj_of_nodup (fun z => z.id) hnd hs0m hmem
    (by show s0.id = sub.id; rw [hs0id, hid])
  have hexp : b.expiryDate = sub.expiryDate := by rw [← hs0exp, hs0]
  have h3 : addDays today days ≤ b.expiryDate := by rw [hexp]; exact hmatch.2.1
  have h4 : b.expiryDate ≤ addDays today days + msPerDay - 1 := by rw [hexp]; exact hmatch.2.2.1
  exact window_disjoint hdne hbm.2.1 hbm.2.2.1 h3 h4

/-- Under Invariant A (at most one active record per user), an active
record with `sub`'s telegramId is `sub`'s record. -/
theorem active_same_user {st : St} {sub : Subscription}
    (honly : ∀ s0 ∈ st.subs, s0.telegramId = sub.telegramId → s0.status = .active → s0 = sub)
    {s : St} (hproj : subProj s = subProj st) {b : Subscription} (hb : b ∈ s.subs)
    (hbst : b.status = .active) (htid : b.telegramId = sub.telegramId) :
    b.id = sub.id := by
  rcases subProj_mem hproj hb with ⟨s0, hs0m, hs0id, hs0tid, hs0st, _⟩
  have hs0 : s0 = sub := honly s0 hs0m (by rw [hs0tid, htid]) (by rw [hs0st, hbst])
  rw [← hs0id, hs0]

/-- One reminder run: the matched checkpoint attempts delivery and
latches the flag exactly when delivery succeeded. -/
theorem reminder_run1 (env : Env) (today : Int) (st : St) (sub : Subscription)
    (days : Nat) (flag : RFlag)
    (hmem : sub ∈ st.subs)
    (hnd : (st.subs.map (fun x => x.id)).Nodup)
    (hcp : (days, flag) ∈ checkpoints)
    (hmatch : matchesCheckpoint today days flag sub)
    (honly : ∀ s0 ∈ st.subs, s0.telegramId = sub.telegramId → s0.status = .active → s0 = sub) :
    lookupSub (reminderScheduler env today st) sub.id
      = some (if env.deliver sub.telegramId = .delivered
          then { sub with reminderFlags := sub.reminderFlags.set flag true } else sub) ∧
    (sub.telegramId, MsgTag.reminder days) ∈ (reminderScheduler env today st).sent := by
  have key : (lookupSub (checkpoints.foldl (reminderCheckpoint env today) st) sub.id,
        decide ((sub.telegramId, MsgTag.reminder days)
          ∈ (checkpoints.foldl (reminderCheckpoint env today) st).sent))
      = (some (if env.deliver sub.telegramId = .delivered
          then { sub with reminderFlags := sub.reminderFlags.set flag true } else sub), true) := by
    refine foldl_single_track (reminderCheckpoint env today)
      (fun s => subProj s = subProj st)
      (fun s => (lookupSub s sub.id, decide ((sub.telegramId, MsgTag.reminder days) ∈ s.sent)))
      (some sub, decide ((sub.telegramId, MsgTag.reminder days) ∈ st.sent))
      (some (if env.deliver sub.telegramId = .delivered
          then { sub with reminderFlags := sub.reminderFlags.set flag true } else sub), true)
      checkpoints (days, flag) st hcp (by decide) ?_ ?_ ?_ rfl ?_
    · intro s hs cp _
      exact (subProj_reminderCheckpoint env today s cp).trans hs
    · intro s hs cp hcpm hne
      have hdne : cp.1 ≠ days := checkpoint_days_inj cp hcpm (days, flag) hcp hne
      show (lookupSub (reminderCheckpoint env today s cp) sub.id,
            decide ((sub.telegramId, MsgTag.reminder days)
              ∈ (reminderCheckpoint env today s cp).sent))
          = (lookupSub s sub.id, decide ((sub.telegramId, MsgTag.reminder days) ∈ s.sent))
      unfold reminderCheckpoint
      refine foldl_proj_const (reminderStep env cp.1 cp.2)
        (fun s2 => (lookupSub s2 sub.id,
          decide ((sub.telegramId, MsgTag.reminder days) ∈ s2.sent))) _ s ?_
      intro s2 b hbf
      have hbmem : b ∈ s.subs := (List.mem_filter.mp hbf).1
      have hbmatch : matchesCheckpoint today cp.1 cp.2 b :=
        of_decide_eq_true (List.mem_filter.mp hbf).2
      have hbid : b.id ≠ sub.id := matched_ne_sub_id hmem hnd hmatch hs hdne hbmem hbmatch
      have c1 : lookupSub (reminderStep env cp.1 cp.2 s2 b) sub.id = lookupSub s2 sub.id :=
        reminderStep_lookup_ne env cp.1 cp.2 s2 b sub.id (Ne.symm hbid)
      have c2 : decide ((sub.telegramId, MsgTag.reminder days)
            ∈ (reminderStep env cp.1 cp.2 s2 b).sent)
          = decide ((sub.telegramId, MsgTag.reminder days) ∈ s2.sent) := by
        rw [reminderStep_sent]
        refine decide_eq_decide.mpr ?_
        constructor
        · intro h
          rcases List.mem_append.mp h with h | h
          · exact h
          · exfalso
            have heq := List.mem_singleton.mp h
            have htag : MsgTag.reminder days = MsgTag.reminder cp.1 := congrArg Prod.snd heq
            have hd : days = cp.1 := by injection htag
            exact hdne hd.symm
        · intro h
          exact List.mem_append.mpr (Or.inl h)
      show (lookupSub (reminderStep env cp.1 cp.2 s2 b) sub.id,
            decide ((sub.telegramId, MsgTag.reminder days)
              ∈ (reminderStep env cp.1 cp.2 s2 b).sent))
          = (lookupSub s2 sub.id, decide ((sub.telegramId, MsgTag.reminder days) ∈ s2.sent))
      rw [c1, c2]
    · intro s hs hv
      have hlk : lookupSub s sub.id = some sub := by
        have := congrArg Prod.fst hv
        simpa using this
      have hndids_s : (s.subs.map (fun z => z.id)).Nodup := nodup_ids_of_subProj hs hnd
      have hnds : s.subs.Nodup := hndids_s.of_map
      have hfil : (s.subs.filter (fun z => decide (matchesCheckpoint today days flag z))).Nodup :=
        hnds.filter _
      have hsubmem : sub ∈ s.subs := List.mem_of_find?_eq_some hlk
      have hsubfil : sub ∈ s.subs.filter (fun z => decide (matchesCheckpoint today days flag z)) :=
        List.mem_filter.mpr ⟨hsubmem, decide_eq_true hmatch⟩
      show (lookupSub (reminderCheckpoint env today s (days, flag)) sub.id,
            decide ((sub.telegramId, MsgTag.reminder days)
              ∈ (reminderCheckpoint env today s (days, flag)).sent))
          = (some (if env.deliver sub.telegramId = .delivered
              then { sub with reminderFlags := sub.reminderFlags.set flag true } else sub), true)
      unfold reminderCheckpoint
      refine foldl_single_track (reminderStep env days flag) (fun _ => True)
        (fun s2 => (lookupSub s2 sub.id,
          decide ((sub.telegramId, MsgTag.reminder days) ∈ s2.sent)))
        (some sub, decide ((sub.telegramId, MsgTag.reminder days) ∈ s.sent))
        (some (if env.deliver sub.telegramId = .delivered
            then { sub with reminderFlags := sub.reminderFlags.set flag true } else sub), true)
        _ sub s hsubfil hfil (fun _ _ _ _ => trivial) ?_ ?_ trivial ?_
      · intro s2 _ b hbf hbne
        have hbmem : b ∈ s.subs := (List.mem_filter.mp hbf).1
        have hbmatch : matchesCheckpoint today days flag b :=
          of_decide_eq_true (List.mem_filter.mp hbf).2
        have hbid : b.id ≠ sub.id := fun h =>
          hbne (key_inj_of_nodup (fun z => z.id) hndids_s hbmem hsubmem h)
        have hbtid : b.telegramId ≠ sub.telegramId := by
          intro h
          exact hbid (active_same_user honly hs hbmem hbmatch.1 h)
        have c1 : lookupSub (reminderStep env days flag s2 b) sub.id = lookupSub s2 sub.id :=
          reminderStep_lookup_ne env days flag s2 b sub.id (Ne.symm hbid)
        have c2 : decide ((sub.telegramId, MsgTag.reminder days)
              ∈ (reminderStep env days flag s2 b).sent)
            = decide ((sub.telegramId, MsgTag.reminder days) ∈ s2.sent) := by
          rw [reminderStep_sent]
          refine decide_eq_decide.mpr ?_
          constructor
          · intro h
            rcases List.mem_append.mp h with h | h
            · exact h
            · exfalso
              have heq := List.mem_singleton.mp h
              have htid : sub.telegramId = b.telegramId := congrArg Prod.fst heq
              exact hbtid htid.symm
          · intro h
            exact List.mem_append.mpr (Or.inl h)
        show (lookupSub (reminderStep env days flag s2 b) sub.id,
              decide ((sub.telegramId, MsgTag.reminder days)
                ∈ (reminderStep env days flag s2 b).sent))
            = (lookupSub s2 sub.id, decide ((sub.telegramId, MsgTag.reminder days) ∈ s2.sent))
        rw [c1, c2]
      · intro s2 _ hv2
        have hlk2 : lookupSub s2 sub.id = some sub := by
          have := congrArg Prod.fst hv2
          simpa using this
        have c1 := reminderStep_lookup_self env days flag s2 sub
        rw [hlk2] at c1
        have c2 : decide ((sub.telegramId, MsgTag.reminder days)
              ∈ (reminderStep env days flag s2 sub).sent) = true := by
          rw [reminderStep_sent]
          exact decide_eq_true (List.mem_append.mpr (Or.inr (List.mem_singleton.mpr rfl)))
        show (lookupSub (reminderStep env days flag s2 sub) sub.id,
              decide ((sub.telegramId, MsgTag.reminder days)
                ∈ (reminderStep env days flag s2 sub).sent))
            = (some (if env.deliver sub.telegramId = .delivered
                then { sub with reminderFlags := sub.reminderFlags.set flag true } else sub), true)
        rw [c1, c2]
        simp
      · show (lookupSub s sub.id, decide ((sub.telegramId, MsgTag.reminder days) ∈ s.sent))
            = (some sub, decide ((sub.telegramId, MsgTag.reminder days) ∈ s.sent))
        rw [hlk]
    · show (lookupSub st sub.id, decide ((sub.telegramId, MsgTag.reminder days) ∈ st.sent))
          = (some sub, decide ((sub.telegramId, MsgTag.reminder days) ∈ st.sent))
      rw [lookupSub_of_mem hmem hnd]
  constructor
  · exact congrArg Prod.fst key
  · have h2 := congrArg Prod.snd key
    exact of_decide_eq_true h2

/-- After the flag is latched, a further same-day reminder run records no
delivery attempt to that user. -/
theorem reminder_run2_quiet (env : Env) (today : Int) (st st2 : St) (sub : Subscription)
    (days : Nat) (flag : RFlag)
    (hnd : (st.subs.map (fun x => x.id)).Nodup)
    (hcp : (days, flag) ∈ checkpoints)
    (hmatch : matchesCheckpoint today days flag sub)
    (honly : ∀ s0 ∈ st.subs, s0.telegramId = sub.telegramId → s0.status = .active → s0 = sub)
    (hproj : subProj st2 = subProj st)
    (hlk : lookupSub st2 sub.id
      = some { sub with reminderFlags := sub.reminderFlags.set flag true }) :
    sentTo (reminderScheduler env today st2) sub.telegramId = sentTo st2 sub.telegramId := by
  have hfacts : ∀ s, (subProj s = subProj st ∧ lookupSub s sub.id
        = some { sub with reminderFlags := sub.reminderFlags.set flag true }) →
      ∀ cp ∈ checkpoints,
      ∀ b ∈ s.subs.filter (fun z => decide (matchesCheckpoint today cp.1 cp.2 z)),
      b.id ≠ sub.id ∧ b.telegramId ≠ sub.telegramId := by
    rintro s ⟨hs, hlks⟩ cp hcpm b hbf
    have hbmem : b ∈ s.subs := (List.mem_filter.mp hbf).1
    have hbmatch : matchesCheckpoint today cp.1 cp.2 b :=
      of_decide_eq_true (List.mem_filter.mp hbf).2
    have hbid : b.id ≠ sub.id := by
      intro hid
      have hndids_s : (s.subs.map (fun z => z.id)).Nodup := nodup_ids_of_subProj hs hnd
      have hlkb : lookupSub s b.id = some b := lookupSub_of_mem hbmem hndids_s
      rw [hid, hlks] at hlkb
      have hb : { sub with reminderFlags := sub.reminderFlags.set flag true } = b :=
        Option.some_inj.mp hlkb
      by_cases hdd : cp.1 = days
      · have hcpe : cp = (days, flag) := by
          by_contra hne
          exact (checkpoint_days_inj cp hcpm (days, flag) hcp hne) hdd
        rw [hcpe] at hbmatch
        have hflag : b.reminderFlags.get flag = false := hbmatch.2.2.2
        rw [← hb] at hflag
        rw [show ({ sub with reminderFlags := sub.reminderFlags.set flag true } : Subscription).reminderFlags
            = sub.reminderFlags.set flag true from rfl] at hflag
        rw [ReminderFlags.get_set_self] at hflag
        exact absurd hflag (by simp)
      · have hexp : b.expiryDate = sub.expiryDate := by rw [← hb]
        have h3 : addDays today days ≤ b.expiryDate := by rw [hexp]; exact hmatch.2.1
        have h4 : b.expiryDate ≤ addDays today days + msPerDay - 1 := by
          rw [hexp]; exact hmatch.2.2.1
        exact window_disjoint hdd hbmatch.2.1 hbmatch.2.2.1 h3 h4
    refine ⟨hbid, ?_⟩
    intro htid
    exact hbid (active_same_user honly hs hbmem hbmatch.1 htid)
  show sentTo (checkpoints.foldl (reminderCheckpoint env today) st2) sub.telegramId
      = sentTo st2 sub.telegramId
  refine foldl_const_inv (reminderCheckpoint env today)
    (fun s => subProj s = subProj st ∧ lookupSub s sub.id
      = some { sub with reminderFlags := sub.reminderFlags.set flag true })
    (fun s => sentTo s sub.telegramId) checkpoints st2 ?_ ?_ ⟨hproj, hlk⟩
  · intro s hs cp hcpm
    refine ⟨(subProj_reminderCheckpoint env today s cp).trans hs.1, ?_⟩
    show lookupSub (reminderCheckpoint env today s cp) sub.id
        = some { sub with reminderFlags := sub.reminderFlags.set flag true }
    unfold reminderCheckpoint
    refine (foldl_proj_const (reminderStep env cp.1 cp.2)
      (fun s2 => lookupSub s2 sub.id) _ s ?_).trans hs.2
    intro s2 b hbf
    exact reminderStep_lookup_ne env cp.1 cp.2 s2 b sub.id
      (Ne.symm (hfacts s hs cp hcpm b hbf).1)
  · intro s hs cp hcpm
    show sentTo (reminderCheckpoint env today s cp) sub.telegramId = sentTo s sub.telegramId
    unfold reminderCheckpoint
    refine foldl_proj_const (reminderStep env cp.1 cp.2)
      (fun s2 => sentTo s2 sub.telegramId) _ s ?_
    intro s2 b hbf
    have hbtid := (hfacts s hs cp hcpm b hbf).2
    show sentTo (reminderStep env cp.1 cp.2 s2 b) sub.telegramId = sentTo s2 sub.telegramId
    unfold sentTo
    rw [reminderStep_sent, List.filter_append]
    have hsingle : (([(b.telegramId, MsgTag.reminder cp.1)] : List (Nat × MsgTag)).filter
        (fun m => m.1 == sub.telegramId)) = [] := by
      simp [hbtid]
    rw [hsingle, List.append_nil]

/-- C3: for an active subscription matched by a reminder checkpoint
(expiry inside the checkpoint's day window, flag unset), one reminder run
attempts delivery and sets the flag exactly when delivery succeeds; on an
unreachable recipient or a transient failure the flag stays false (the
record is untouched); and after a successful delivery a second run the
same day records no delivery attempt to that user at all. -/
theorem c3_reminder_flag_iff_delivered (env : Env) (today : Int) (st : St) (sub : Subscription)
    (days : Nat) (flag : RFlag)
    (hmem : sub ∈ st.subs)
    (hnd : (st.subs.map (fun x => x.id)).Nodup)
    (hcp : (days, flag) ∈ checkpoints)
    (hmatch : matchesCheckpoint today days flag sub)
    (honly : ∀ s0 ∈ st.subs, s0.telegramId = sub.telegramId → s0.status = .active → s0 = sub) :
    (env.deliver sub.telegramId = .delivered →
       lookupSub (reminderScheduler env today st) sub.id
         = some { sub with reminderFlags := sub.reminderFlags.set flag true }) ∧
    (env.deliver sub.telegramId ≠ .delivered →
       lookupSub (reminderScheduler env today st) sub.id = some sub) ∧
    (sub.telegramId, MsgTag.reminder days) ∈ (reminderScheduler env today st).sent ∧
    (env.deliver sub.telegramId = .delivered →
       sentTo (reminderScheduler env today (reminderScheduler env today st)) sub.telegramId
         = sentTo (reminderScheduler env today st) sub.telegramId) := by
  obtain ⟨h1, h2⟩ := reminder_run1 env today st sub days flag hmem hnd hcp hmatch honly
  refine ⟨?_, ?_, h2, ?_⟩
  · intro hdel
    rw [h1, if_pos hdel]
  · intro hdel
    rw [h1, if_neg hdel]
  · intro hdel
    refine reminder_run2_quiet env today st _ sub days flag hnd hcp hmatch honly
      (subProj_reminderScheduler env today st) ?_
    rw [h1, if_pos hdel]

theorem c3_witness :
    ((mkSub 0 7 .active (7 * msPerDay)) ∈ stC3.subs ∧
     (stC3.subs.map (fun x => x.id)).Nodup ∧
     (7, RFlag.day7) ∈ checkpoints ∧
     matchesCheckpoint 0 7 .day7 (mkSub 0 7 .active (7 * msPerDay)) ∧
     (∀ s0 ∈ stC3.subs, s0.telegramId = (mkSub 0 7 .active (7 * msPerDay)).telegramId →
        s0.status = .active → s0 = mkSub 0 7 .active (7 * msPerDay))) ∧
    ((envOk.deliver (mkSub 0 7 .active (7 * msPerDay)).telegramId = .delivered →
        lookupSub (reminderScheduler envOk 0 stC3) (mkSub 0 7 .active (7 * msPerDay)).id
          = some { mkSub 0 7 .active (7 * msPerDay) with
              reminderFlags := (mkSub 0 7 .active (7 * msPerDay)).reminderFlags.set .day7 true }) ∧
     (envOk.deliver (mkSub 0 7 .active (7 * msPerDay)).telegramId ≠ .delivered →
        lookupSub (reminderScheduler envOk 0 stC3) (mkSub 0 7 .active (7 * msPerDay)).id
          = some (mkSub 0 7 .active (7 * msPerDay))) ∧
     ((mkSub 0 7 .active (7 * msPerDay)).telegramId, MsgTag.reminder 7)
        ∈ (reminderScheduler envOk 0 stC3).sent ∧
     (envOk.deliver (mkSub 0 7 .active (7 * msPerDay)).telegramId = .delivered →
        sentTo (reminderScheduler envOk 0 (reminderScheduler envOk 0 stC3))
            (mkSub 0 7 .active (7 * msPerDay)).telegramId
          = sentTo (reminderScheduler envOk 0 stC3)
              (mkSub 0 7 .active (7 * msPerDay)).telegramId)) :=
  ⟨⟨by decide, by decide, by decide, by decide, by decide⟩,
    c3_reminder_flag_iff_delivered envOk 0 stC3 (mkSub 0 7 .active (7 * msPerDay)) 7 .day7
      (by decide) (by decide) (by decide) (by decide) (by decide)⟩

/-! ## Grace-period engine lemmas -/

/-- `lookupUser` at a different telegramId is unchanged by `updateUser`. -/
theorem lookupUser_updateUser_ne (st : St) (uid tid : Nat) (f : User → User)
    (hf : ∀ u, (f u).telegramId = u.telegramId) (hne : tid ≠ uid) :
    lookupUser (updateUser st uid f) tid = lookupUser st tid := by
  rw [lookupUser_updateUser st uid tid f hf]
  cases h : lookupUser st tid with
  | none => rfl
  | some u =>
      have : u.telegramId = tid := lookupUser_tid h
      simp [this, hne]

/-- Membership introduced at one element's step survives the fold. -/
theorem foldl_mem_intro {α β γ : Type} (step : β → α → β) (P : β → List γ) (x : γ)
    (L : List α) (a : α) (st : β) (ha : a ∈ L)
    (hgrow : ∀ s, ∀ b ∈ L, ∀ y ∈ P s, y ∈ P (step s b))
    (hadd : ∀ s, x ∈ P (step s a)) :
    x ∈ P (L.foldl step st) := by
  induction L generalizing st with
  | nil => cases ha
  | cons b t ih =>
      simp only [List.foldl_cons]
      rcases List.mem_cons.mp ha with rfl | hat
      · exact foldl_mem_grow step P t (step st a) x
          (fun s c hc y hy => hgrow s c (List.mem_cons_of_mem _ hc) y hy) (hadd st)
      · exact ih (step st b) hat (fun s c hc y hy => hgrow s c (List.mem_cons_of_mem _ hc) y hy)

/-- `tidProj` only depends on the subscription list. -/
theorem tidProj_congr {st1 st2 : St} (h : st1.subs = st2.subs) : tidProj st1 = tidProj st2 := by
  unfold tidProj
  rw [h]

/-- `updateSub` with id/telegramId-preserving updates preserves `tidProj`. -/
theorem tidProj_updateSub (st : St) (i : Nat) (f : Subscription → Subscription)
    (hf : ∀ s, (f s).id = s.id ∧ (f s).telegramId = s.telegramId) :
    tidProj (updateSub st i f) = tidProj st := by
  show (st.subs.map fun s => if s.id = i then f s else s).map _ = _
  rw [List.map_map]
  apply List.map_congr_left
  intro x _
  by_cases hx : x.id = i <;> simp [hx, (hf x).1, (hf x).2]

/-- Ids are the first components of `tidProj`. -/
theorem idsOf_tidProj (st : St) :
    st.subs.map (fun s => s.id) = (tidProj st).map (fun q => q.1) := by
  unfold tidProj
  rw [List.map_map]
  rfl

/-- Ids duplicate-freeness transports along equal `tidProj`. -/
theorem nodup_ids_of_tidProj {st1 st2 : St} (h : tidProj st1 = tidProj st2)
    (hnd : (st2.subs.map (fun x => x.id)).Nodup) : (st1.subs.map (fun x => x.id)).Nodup := by
  rw [idsOf_tidProj, h, ← idsOf_tidProj]
  exact hnd

/-- Transport of id/telegramId across states with equal `tidProj`. -/
theorem tidProj_mem {st1 st2 : St} (h : tidProj st1 = tidProj st2) {b : Subscription}
    (hb : b ∈ st1.subs) :
    ∃ s0 ∈ st2.subs, s0.id = b.id ∧ s0.telegramId = b.telegramId := by
  have hmem : (b.id, b.telegramId) ∈ tidProj st1 := List.mem_map_of_mem _ hb
  rw [h] at hmem
  rcases List.mem_map.mp hmem with ⟨s0, hs0, heq⟩
  simp only [Prod.mk.injEq] at heq
  exact ⟨s0, hs0, heq.1, heq.2⟩

/-- `safeSend` leaves the user collection alone unless the recipient is
unreachable. -/
theorem safeSend_users_of_reachable (env : Env) (st : St) (u : Nat) (t : MsgTag)
    (h : env.deliver u ≠ .unreachable) : (safeSend env st u t).1.users = st.users := by
  unfold safeSend
  cases hdel : env.deliver u with
  | delivered => rfl
  | unreachable => exact absurd hdel h
  | transientError => rfl

/-- `safeSend` only ever rewrites the recipient's user record. -/
theorem lookupUser_safeSend_ne (env : Env) (st : St) (u : Nat) (t : MsgTag) (tid : Nat)
    (hne : tid ≠ u) : lookupUser (safeSend env st u t).1 tid = lookupUser st tid := by
  unfold safeSend
  cases hdel : env.deliver u with
  | delivered => rfl
  | unreachable =>
      show lookupUser (handleBlockedUser (pushSent st u t) u) tid = lookupUser st tid
      rw [lookupUser_handleBlockedUser]
      have hps : lookupUser (pushSent st u t) tid = lookupUser st tid := rfl
      rw [hps]
      cases h : lookupUser st tid with
      | none => rfl
      | some x =>
          have hx : x.telegramId = tid := lookupUser_tid h
          simp [hx, hne]
  | transientError => rfl

/-- Entry transition, frame on other subscriptions. -/
theorem graceEntryStep_lookup_ne (env : Env) (g : Nat) (s : St) (b : Subscription) (j : Nat)
    (hne : j ≠ b.id) :
    lookupSub (graceEntryStep env g s b) j = lookupSub s j := by
  have h1 : lookupSub (graceEntryStep env g s b) j
      = lookupSub (updateSub s b.id (fun x => { x with status := .grace, graceDaysUsed := 0 })) j :=
    lookupSub_congr (by simp [graceEntryStep]) j
  rw [h1]
  exact lookupSub_updateSub_ne s j b.id _ (fun _ => rfl) hne

/-- Entry transition, effect on its own subscription. -/
theorem graceEntryStep_lookup_self (env : Env) (g : Nat) (s : St) (b : Subscription) :
    lookupSub (graceEntryStep env g s b) b.id
      = (lookupSub s b.id).map (fun x =>
          if x.id = b.id then { x with status := .grace, graceDaysUsed := 0 } else x) := by
  have h1 : lookupSub (graceEntryStep env g s b) b.id
      = lookupSub (updateSub s b.id (fun x => { x with status := .grace, graceDaysUsed := 0 })) b.id :=
    lookupSub_congr (by simp [graceEntryStep]) b.id
  rw [h1]
  exact lookupSub_updateSub s b.id b.id _ (fun _ => rfl)

/-- Entry transition, frame on other users. -/
theorem graceEntryStep_lookupUser_ne (env : Env) (g : Nat) (s : St) (b : Subscription)
    (tid : Nat) (hne : tid ≠ b.telegramId) :
    lookupUser (graceEntryStep env g s b) tid = lookupUser s tid := by
  unfold graceEntryStep
  have h1 : lookupUser (pushChan ((safeSend env (updateUser
      (updateSub s b.id (fun x => { x with status := .grace, graceDaysUsed := 0 }))
      b.telegramId (fun u => { u with status := .expired, graceDaysRemaining := some g }))
      b.telegramId .graceStarted).1) (.graceStarted b.telegramId)) tid
      = lookupUser ((safeSend env (updateUser
      (updateSub s b.id (fun x => { x with status := .grace, graceDaysUsed := 0 }))
      b.telegramId (fun u => { u with status := .expired, graceDaysRemaining := some g }))
      b.telegramId .graceStarted).1) tid := rfl
  rw [h1, lookupUser_safeSend_ne env _ b.telegramId .graceStarted tid hne,
    lookupUser_updateUser_ne _ b.telegramId tid
      (fun u => { u with status := .expired, graceDaysRemaining := some g }) (fun _ => rfl) hne]
  rfl

/-- Entry transition never issues ban calls. -/
theorem graceEntryStep_banCalls (env : Env) (g : Nat) (s : St) (b : Subscription) :
    (graceEntryStep env g s b).banCalls = s.banCalls := by
  simp [graceEntryStep]

/-- Entry transition appends exactly its grace-started attempt. -/
theorem graceEntryStep_sent (env : Env) (g : Nat) (s : St) (b : Subscription) :
    (graceEntryStep env g s b).sent = s.sent ++ [(b.telegramId, .graceStarted)] := by
  simp [graceEntryStep]

/-- Entry transition preserves the (id, telegramId) projection. -/
theorem tidProj_graceEntryStep (env : Env) (g : Nat) (s : St) (b : Subscription) :
    tidProj (graceEntryStep env g s b) = tidProj s := by
  have h1 : tidProj (graceEntryStep env g s b)
      = tidProj (updateSub s b.id (fun x => { x with status := .grace, graceDaysUsed := 0 })) :=
    tidProj_congr (by simp [graceEntryStep])
  rw [h1]
  exact tidProj_updateSub s b.id _ (fun _ => ⟨rfl, rfl⟩)

/-- Delivery attempts never remove earlier audit entries. -/
theorem safeSend_audit_mono (env : Env) (st : St) (u : Nat) (t : MsgTag) :
    ∀ y ∈ st.audit, y ∈ (safeSend env st u t).1.audit := by
  intro y hy
  unfold safeSend
  cases hdel : env.deliver u <;> simp [hy]

/-- In-grace step, frame on other subscriptions. -/
theorem graceInStep_lookup_ne (env : Env) (g : Nat) (today : Int) (s : St) (b : Subscription)
    (j : Nat) (hne : j ≠ b.id) :
    lookupSub (graceInStep env g today s b) j = lookupSub s j := by
  unfold graceInStep
  split
  · have h1 : lookupSub (pushAudit (pushChan ((safeSend env (updateUser
        (updateSub (banFromGroupSt env s b.telegramId) b.id
          (fun x => { x with status := .expired, graceDaysUsed := g }))
        b.telegramId (fun u => { u with status := .expired, graceDaysRemaining := some 0 }))
        b.telegramId .accessRemoved).1)
        (.removedAfterGrace b.telegramId (daysSinceExpiry today b)))
        { adminId := 0, actionType := "ban_user", targetUserId := b.telegramId,
          reason := .gracePeriodExpired (daysSinceExpiry today b) }) j
        = lookupSub (updateSub (banFromGroupSt env s b.telegramId) b.id
            (fun x => { x with status := .expired, graceDaysUsed := g })) j :=
      lookupSub_congr (by simp) j
    rw [h1, lookupSub_updateSub_ne _ j b.id
      (fun x => { x with status := .expired, graceDaysUsed := g }) (fun _ => rfl) hne]
    exact lookupSub_congr (banFromGroupSt_subs env s b.telegramId) j
  · split
    · rw [lookupSub_updateSub_ne _ j b.id
        (fun x => { x with graceNotifications := { x.graceNotifications with day2 := true } })
        (fun _ => rfl) hne]
      exact lookupSub_congr (safeSend_subs env s b.telegramId .graceFinalWarning) j
    · split
      · rw [lookupSub_updateSub_ne _ j b.id
          (fun x => { x with graceNotifications := { x.graceNotifications with day1 := true } })
          (fun _ => rfl) hne]
        exact lookupSub_congr (safeSend_subs env s b.telegramId .graceEarlyReminder) j
      · rfl

/-- In-grace step at or past the grace bound: the terminal write on its
own subscription. -/
theorem graceInStep_lookup_self_terminal (env : Env) (g : Nat) (today : Int) (s : St)
    (b : Subscription) (hcond : (g : Int) ≤ daysSinceExpiry today b) :
    lookupSub (graceInStep env g today s b) b.id
      = (lookupSub s b.id).map (fun x =>
          if x.id = b.id then { x with status := .expired, graceDaysUsed := g } else x) := by
  unfold graceInStep
  rw [if_pos hcond]
  have h1 : lookupSub (pushAudit (pushChan ((safeSend env (updateUser
      (updateSub (banFromGroupSt env s b.telegramId) b.id
        (fun x => { x with status := .expired, graceDaysUsed := g }))
      b.telegramId (fun u => { u with status := .expired, graceDaysRemaining := some 0 }))
      b.telegramId .accessRemoved).1)
      (.removedAfterGrace b.telegramId (daysSinceExpiry today b)))
      { adminId := 0, actionType := "ban_user", targetUserId := b.telegramId,
        reason := .gracePeriodExpired (daysSinceExpiry today b) }) b.id
      = lookupSub (updateSub (banFromGroupSt env s b.telegramId) b.id
          (fun x => { x with status := .expired, graceDaysUsed := g })) b.id :=
    lookupSub_congr (by simp) b.id
  rw [h1, lookupSub_updateSub _ b.id b.id
    (fun x => { x with status := .expired, graceDaysUsed := g }) (fun _ => rfl)]
  rw [lookupSub_congr (banFromGroupSt_subs env s b.telegramId) b.id]

/-- In-grace step, frame on other users. -/
theorem graceInStep_lookupUser_ne (env : Env) (g : Nat) (today : Int) (s : St)
    (b : Subscription) (tid : Nat) (hne : tid ≠ b.telegramId) :
    lookupUser (graceInStep env g today s b) tid = lookupUser s tid := by
  unfold graceInStep
  split
  · have h1 : lookupUser (pushAudit (pushChan ((safeSend env (updateUser
        (updateSub (banFromGroupSt env s b.telegramId) b.id
          (fun x => { x with status := .expired, graceDaysUsed := g }))
        b.telegramId (fun u => { u with status := .expired, graceDaysRemaining := some 0 }))
        b.telegramId .accessRemoved).1)
        (.removedAfterGrace b.telegramId (daysSinceExpiry today b)))
        { adminId := 0, actionType := "ban_user", targetUserId := b.telegramId,
          reason := .gracePeriodExpired (daysSinceExpiry today b) }) tid
        = lookupUser ((safeSend env (updateUser
        (updateSub (banFromGroupSt env s b.telegramId) b.id
          (fun x => { x with status := .expired, graceDaysUsed := g }))
        b.telegramId (fun u => { u with status := .expired, graceDaysRemaining := some 0 }))
        b.telegramId .accessRemoved).1) tid := rfl
    rw [h1, lookupUser_safeSend_ne env _ b.telegramId .accessRemoved tid hne,
      lookupUser_updateUser_ne _ b.telegramId tid
        (fun u => { u with status := .expired, graceDaysRemaining := some 0 }) (fun _ => rfl) hne]
    exact lookupUser_congr (by simp) tid
  · split
    · have h1 : lookupUser (updateSub (safeSend env s b.telegramId .graceFinalWarning).1 b.id
          (fun x => { x with graceNotifications := { x.graceNotifications with day2 := true } })) tid
          = lookupUser (safeSend env s b.telegramId .graceFinalWarning).1 tid := rfl
      rw [h1]
      exact lookupUser_safeSend_ne env s b.telegramId .graceFinalWarning tid hne
    · split
      · have h1 : lookupUser (updateSub (safeSend env s b.telegramId .graceEarlyReminder).1 b.id
            (fun x => { x with graceNotifications := { x.graceNotifications with day1 := true } })) tid
            = lookupUser (safeSend env s b.telegramId .graceEarlyReminder).1 tid := rfl
        rw [h1]
        exact lookupUser_safeSend_ne env s b.telegramId .graceEarlyReminder tid hne
      · rfl

/-- In-grace terminal step mirrors the user record (when the removal
notice does not hit a blocked recipient, which would divert through the
blocked-user procedure afterwards). -/
theorem graceInStep_user_terminal (env : Env) (g : Nat) (today : Int) (s : St)
    (b : Subscription) (hcond : (g : Int) ≤ daysSinceExpiry today b)
    (hnb : env.deliver b.telegramId ≠ .unreachable) :
    lookupUser (graceInStep env g today s b) b.telegramId
      = (lookupUser s b.telegramId).map (fun u =>
          if u.telegramId = b.telegramId
          then { u with status := .expired, graceDaysRemaining := some 0 } else u) := by
  unfold graceInStep
  rw [if_pos hcond]
  have h1 : lookupUser (pushAudit (pushChan ((safeSend env (updateUser
      (updateSub (banFromGroupSt env s b.telegramId) b.id
        (fun x => { x with status := .expired, graceDaysUsed := g }))
      b.telegramId (fun u => { u with status := .expired, graceDaysRemaining := some 0 }))
      b.telegramId .accessRemoved).1)
      (.removedAfterGrace b.telegramId (daysSinceExpiry today b)))
      { adminId := 0, actionType := "ban_user", targetUserId := b.telegramId,
        reason := .gracePeriodExpired (daysSinceExpiry today b) }) b.telegramId
      = lookupUser ((safeSend env (updateUser
      (updateSub (banFromGroupSt env s b.telegramId) b.id
        (fun x => { x with status := .expired, graceDaysUsed := g }))
      b.telegramId (fun u => { u with status := .expired, graceDaysRemaining := some 0 }))
      b.telegramId .accessRemoved).1) b.telegramId := rfl
  rw [h1, lookupUser_congr (safeSend_users_of_reachable env _ b.telegramId .accessRemoved hnb)
    b.telegramId]
  rw [lookupUser_updateUser _ b.telegramId b.telegramId
    (fun u => { u with status := .expired, graceDaysRemaining := some 0 }) (fun _ => rfl)]
  rw [lookupUser_congr (show (updateSub (banFromGroupSt env s b.telegramId) b.id
      (fun x => { x with status := .expired, graceDaysUsed := g })).users = s.users by simp)
    b.telegramId]

/-- In-grace steps never drop recorded delivery attempts. -/
theorem graceInStep_sent_mono (env : Env) (g : Nat) (today : Int) (s : St) (b : Subscription) :
    ∀ y ∈ s.sent, y ∈ (graceInStep env g today s b).sent := by
  intro y hy
  unfold graceInStep
  split
  · simp [hy]
  · split
    · simp [hy]
    · split
      · simp [hy]
      · exact hy

/-- In-grace steps never drop audit entries. -/
theorem graceInStep_audit_mono (env : Env) (g : Nat) (today : Int) (s : St) (b : Subscription) :
    ∀ y ∈ s.audit, y ∈ (graceInStep env g today s b).audit := by
  intro y hy
  unfold graceInStep
  split
  · have h2 : y ∈ ((safeSend env (updateUser
        (updateSub (banFromGroupSt env s b.telegramId) b.id
          (fun x => { x with status := .expired, graceDaysUsed := g }))
        b.telegramId (fun u => { u with status := .expired, graceDaysRemaining := some 0 }))
        b.telegramId .accessRemoved).1).audit :=
      safeSend_audit_mono env _ b.telegramId .accessRemoved y (by simpa using hy)
    simp only [pushAudit_audit, pushChan_audit]
    exact List.mem_append.mpr (Or.inl h2)
  · split
    · have h2 : y ∈ ((safeSend env s b.telegramId .graceFinalWarning).1).audit :=
        safeSend_audit_mono env s b.telegramId .graceFinalWarning y hy
      simpa using h2
    · split
      · have h2 : y ∈ ((safeSend env s b.telegramId .graceEarlyReminder).1).audit :=
          safeSend_audit_mono env s b.telegramId .graceEarlyReminder y hy
        simpa using h2
      · exact hy

/-- In-grace steps never drop ban calls. -/
theorem graceInStep_banCalls_mono (env : Env) (g : Nat) (today : Int) (s : St)
    (b : Subscription) :
    ∀ y ∈ s.banCalls, y ∈ (graceInStep env g today s b).banCalls := by
  intro y hy
  unfold graceInStep
  split
  · simp [hy]
  · split
    · simp [hy]
    · split
      · simp [hy]
      · exact hy

/-- An in-grace step for another user does not change this user's ban
count. -/
theorem graceInStep_banCalls_count_ne (env : Env) (g : Nat) (today : Int) (s : St)
    (b : Subscription) (uid : Nat) (hne : b.telegramId ≠ uid) :
    ((graceInStep env g today s b).banCalls).count uid = s.banCalls.count uid := by
  have hbeq : (uid == b.telegramId) = false := by
    simpa using (Ne.symm hne)
  unfold graceInStep
  split
  · simp [List.count_append, List.count_cons, hbeq, hne]
  · split
    · simp
    · split
      · simp
      · rfl

/-- The observable effects of the terminal in-grace transition. -/
theorem graceInStep_terminal_effects (env : Env) (g : Nat) (today : Int) (s : St)
    (b : Subscription) (hcond : (g : Int) ≤ daysSinceExpiry today b) :
    b.telegramId ∈ (graceInStep env g today s b).banCalls ∧
    (b.telegramId, MsgTag.accessRemoved) ∈ (graceInStep env g today s b).sent ∧
    ({ adminId := 0, actionType := "ban_user", targetUserId := b.telegramId,
       reason := .gracePeriodExpired (daysSinceExpiry today b) } : AuditEntry)
      ∈ (graceInStep env g today s b).audit := by
  unfold graceInStep
  rw [if_pos hcond]
  refine ⟨by simp, by simp, by simp⟩

/-- In-grace steps preserve the (id, telegramId) projection. -/
theorem tidProj_graceInStep (env : Env) (g : Nat) (today : Int) (s : St) (b : Subscription) :
    tidProj (graceInStep env g today s b) = tidProj s := by
  unfold graceInStep
  split
  · have h1 : tidProj (pushAudit (pushChan ((safeSend env (updateUser
        (updateSub (banFromGroupSt env s b.telegramId) b.id
          (fun x => { x with status := .expired, graceDaysUsed := g }))
        b.telegramId (fun u => { u with status := .expired, graceDaysRemaining := some 0 }))
        b.telegramId .accessRemoved).1)
        (.removedAfterGrace b.telegramId (daysSinceExpiry today b)))
        { adminId := 0, actionType := "ban_user", targetUserId := b.telegramId,
          reason := .gracePeriodExpired (daysSinceExpiry today b) })
        = tidProj (updateSub (banFromGroupSt env s b.telegramId) b.id
            (fun x => { x with status := .expired, graceDaysUsed := g })) :=
      tidProj_congr (by simp)
    rw [h1, tidProj_updateSub _ b.id
      (fun x => { x with status := .expired, graceDaysUsed := g }) (fun _ => ⟨rfl, rfl⟩)]
    exact tidProj_congr (banFromGroupSt_subs env s b.telegramId)
  · split
    · rw [tidProj_updateSub _ b.id
        (fun x => { x with graceNotifications := { x.graceNotifications with day2 := true } })
        (fun _ => ⟨rfl, rfl⟩)]
      exact tidProj_congr (safeSend_subs env s b.telegramId .graceFinalWarning)
    · split
      · rw [tidProj_updateSub _ b.id
          (fun x => { x with graceNotifications := { x.graceNotifications with day1 := true } })
          (fun _ => ⟨rfl, rfl⟩)]
        exact tidProj_congr (safeSend_subs env s b.telegramId .graceEarlyReminder)
      · rfl

/-- `tidProj` across the entry phase. -/
theorem tidProj_graceEntryPhase (env : Env) (g : Nat) (today : Int) (st : St) :
    tidProj (graceEntryPhase env g today st) = tidProj st :=
  foldl_proj_const _ tidProj _ st (fun s b _ => tidProj_graceEntryStep env g s b)

/-- `tidProj` across the in-grace phase. -/
theorem tidProj_graceInPhase (env : Env) (g : Nat) (today : Int) (st : St) :
    tidProj (graceInPhase env g today st) = tidProj st :=
  foldl_proj_const _ tidProj _ st (fun s b _ => tidProj_graceInStep env g today s b)

/-- `tidProj` across a whole grace-period run. -/
theorem tidProj_gracePeriodHandler (env : Env) (g : Nat) (today : Int) (st : St) :
    tidProj (gracePeriodHandler env g today st) = tidProj st := by
  unfold gracePeriodHandler
  rw [tidProj_graceInPhase, tidProj_graceEntryPhase]

/-! ## C10 -/

/-- C10: a subscription still `active` but already `GRACE_PERIOD_DAYS`
or more days past expiry when the grace job runs is double-transitioned
in a single run: the entry sweep moves it to grace and sends the
grace-started message, and the same run's in-grace sweep (a fresh query
that picks up the just-transitioned record) immediately performs the
terminal transition — removal call, status `expired`,
`graceDaysUsed = GRACE_PERIOD_DAYS`, removal notice — so the user gets
the grace-started message and the removal in one run with zero actual
grace days. -/
theorem c10_zero_day_grace (env : Env) (graceDays : Nat) (today : Int) (st : St)
    (sub : Subscription)
    (hmem : sub ∈ st.subs)
    (hnd : (st.subs.map (fun x => x.id)).Nodup)
    (hact : sub.status = .active)
    (hexp : sub.expiryDate < today)
    (hover : (graceDays : Int) ≤ daysSinceExpiry today sub) :
    lookupSub (gracePeriodHandler env graceDays today st) sub.id
      = some { sub with status := .expired, graceDaysUsed := graceDays } ∧
    (sub.telegramId, MsgTag.graceStarted) ∈ (gracePeriodHandler env graceDays today st).sent ∧
    (sub.telegramId, MsgTag.accessRemoved) ∈ (gracePeriodHandler env graceDays today st).sent ∧
    sub.telegramId ∈ (gracePeriodHandler env graceDays today st).banCalls := by
  have hfil1 : sub ∈ st.subs.filter (fun z => decide (z.status = .active ∧ z.expiryDate < today)) :=
    List.mem_filter.mpr ⟨hmem, decide_eq_true ⟨hact, hexp⟩⟩
  have hnodup1 : (st.subs.filter (fun z => decide (z.status = .active ∧ z.expiryDate < today))).Nodup :=
    (hnd.of_map).filter _
  have hstep1 : lookupSub (graceEntryPhase env graceDays today st) sub.id
      = some { sub with status := .grace, graceDaysUsed := 0 } := by
    have key := foldl_proj_single (graceEntryStep env graceDays)
      (fun s => lookupSub s sub.id)
      (Option.map (fun x => if x.id = sub.id then { x with status := .grace, graceDaysUsed := 0 } else x))
      (st.subs.filter (fun z => decide (z.status = .active ∧ z.expiryDate < today))) sub st
      hfil1 hnodup1
      (fun b hb hbne s => by
        have hbmem : b ∈ st.subs := (List.mem_filter.mp hb).1
        have hbid : sub.id ≠ b.id := fun h =>
          hbne (key_inj_of_nodup (fun z => z.id) hnd hbmem hmem h.symm)
        exact graceEntryStep_lookup_ne env graceDays s b sub.id hbid)
      (fun s => graceEntryStep_lookup_self env graceDays s sub)
    simp only [] at key
    show lookupSub ((st.subs.filter (fun z => decide (z.status = .active ∧ z.expiryDate < today))).foldl
        (graceEntryStep env graceDays) st) sub.id = _
    rw [key, lookupSub_of_mem hmem hnd]
    simp
  have hsent1 : (sub.telegramId, MsgTag.graceStarted) ∈ (graceEntryPhase env graceDays today st).sent := by
    show _ ∈ ((st.subs.filter (fun z => decide (z.status = .active ∧ z.expiryDate < today))).foldl
        (graceEntryStep env graceDays) st).sent
    refine foldl_mem_intro (graceEntryStep env graceDays) (fun s => s.sent) _ _ sub st hfil1 ?_ ?_
    · intro s b _ y hy
      show y ∈ (graceEntryStep env graceDays s b).sent
      rw [graceEntryStep_sent]
      exact List.mem_append.mpr (Or.inl hy)
    · intro s
      show (sub.telegramId, MsgTag.graceStarted) ∈ (graceEntryStep env graceDays s sub).sent
      rw [graceEntryStep_sent]
      exact List.mem_append.mpr (Or.inr (List.mem_singleton.mpr rfl))
  have hnd1 : ((graceEntryPhase env graceDays today st).subs.map (fun x => x.id)).Nodup :=
    nodup_ids_of_tidProj (tidProj_graceEntryPhase env graceDays today st) hnd
  have hmem1 : ({ sub with status := .grace, graceDaysUsed := 0 } : Subscription)
      ∈ (graceEntryPhase env graceDays today st).subs := lookupSub_mem hstep1
  have hfil2 : ({ sub with status := .grace, graceDaysUsed := 0 } : Subscription)
      ∈ (graceEntryPhase env graceDays today st).subs.filter (fun z => decide (z.status = .grace)) :=
    List.mem_filter.mpr ⟨hmem1, rfl⟩
  have hnodup2 : ((graceEntryPhase env graceDays today st).subs.filter
      (fun z => decide (z.status = .grace))).Nodup := (hnd1.of_map).filter _
  have hcond2 : (graceDays : Int)
      ≤ daysSinceExpiry today { sub with status := .grace, graceDaysUsed := 0 } := hover
  have hstep2 : lookupSub (gracePeriodHandler env graceDays today st) sub.id
      = some { sub with status := .expired, graceDaysUsed := graceDays } := by
    have key := foldl_proj_single (graceInStep env graceDays today)
      (fun s => lookupSub s sub.id)
      (Option.map (fun x =>
        if x.id = ({ sub with status := .grace, graceDaysUsed := 0 } : Subscription).id
        then { x with status := .expired, graceDaysUsed := graceDays } else x))
      ((graceEntryPhase env graceDays today st).subs.filter (fun z => decide (z.status = .grace)))
      { sub with status := .grace, graceDaysUsed := 0 }
      (graceEntryPhase env graceDays today st) hfil2 hnodup2
      (fun b hb hbne s => by
        have hbmem : b ∈ (graceEntryPhase env graceDays today st).subs := (List.mem_filter.mp hb).1
        have hbid : sub.id ≠ b.id := fun h =>
          hbne (key_inj_of_nodup (fun z => z.id) hnd1 hbmem hmem1 h.symm)
        exact graceInStep_lookup_ne env graceDays today s b sub.id hbid)
      (fun s => graceInStep_lookup_self_terminal env graceDays today s
        { sub with status := .grace, graceDaysUsed := 0 } hcond2)
    simp only [] at key
    show lookupSub (((graceEntryPhase env graceDays today st).subs.filter
        (fun z => decide (z.status = .grace))).foldl (graceInStep env graceDays today)
        (graceEntryPhase env graceDays today st)) sub.id = _
    rw [key, hstep1]
    simp
  refine ⟨hstep2, ?_, ?_, ?_⟩
  · show _ ∈ (((graceEntryPhase env graceDays today st).subs.filter
        (fun z => decide (z.status = .grace))).foldl (graceInStep env graceDays today)
        (graceEntryPhase env graceDays today st)).sent
    refine foldl_mem_grow (graceInStep env graceDays today) (fun s => s.sent) _ _ _ ?_ hsent1
    intro s b _ y hy
    exact graceInStep_sent_mono env graceDays today s b y hy
  · show _ ∈ (((graceEntryPhase env graceDays today st).subs.filter
        (fun z => decide (z.status = .grace))).foldl (graceInStep env graceDays today)
        (graceEntryPhase env graceDays today st)).sent
    refine foldl_mem_intro (graceInStep env graceDays today) (fun s => s.sent) _ _
      { sub with status := .grace, graceDaysUsed := 0 } _ hfil2 ?_ ?_
    · intro s b _ y hy
      exact graceInStep_sent_mono env graceDays today s b y hy
    · intro s
      exact (graceInStep_terminal_effects env graceDays today s
        { sub with status := .grace, graceDaysUsed := 0 } hcond2).2.1
  · show _ ∈ (((graceEntryPhase env graceDays today st).subs.filter
        (fun z => decide (z.status = .grace))).foldl (graceInStep env graceDays today)
        (graceEntryPhase env graceDays today st)).banCalls
    refine foldl_mem_intro (graceInStep env graceDays today) (fun s => s.banCalls) _ _
      { sub with status := .grace, graceDaysUsed := 0 } _ hfil2 ?_ ?_
    · intro s b _ y hy
      exact graceInStep_banCalls_mono env graceDays today s b y hy
    · intro s
      exact (graceInStep_terminal_effects env graceDays today s
        { sub with status := .grace, graceDaysUsed := 0 } hcond2).1

theorem c10_witness :
    ((mkSub 0 8 .active 0) ∈ stC10.subs ∧
     (stC10.subs.map (fun x => x.id)).Nodup ∧
     (mkSub 0 8 .active 0).status = .active ∧
     (mkSub 0 8 .active 0).expiryDate < 3 * msPerDay ∧
     ((3 : Nat) : Int) ≤ daysSinceExpiry (3 * msPerDay) (mkSub 0 8 .active 0)) ∧
    (lookupSub (gracePeriodHandler envOk 3 (3 * msPerDay) stC10) (mkSub 0 8 .active 0).id
       = some { mkSub 0 8 .active 0 with status := .expired, graceDaysUsed := 3 } ∧
     ((mkSub 0 8 .active 0).telegramId, MsgTag.graceStarted)
       ∈ (gracePeriodHandler envOk 3 (3 * msPerDay) stC10).sent ∧
     ((mkSub 0 8 .active 0).telegramId, MsgTag.accessRemoved)
       ∈ (gracePeriodHandler envOk 3 (3 * msPerDay) stC10).sent ∧
     (mkSub 0 8 .active 0).telegramId ∈ (gracePeriodHandler envOk 3 (3 * msPerDay) stC10).banCalls) :=
  ⟨⟨by decide, by decide, by decide, by decide, by decide⟩,
    c10_zero_day_grace envOk 3 (3 * msPerDay) stC10 (mkSub 0 8 .active 0)
      (by decide) (by decide) (by decide) (by decide) (by decide)⟩

/-! ## C1 -/

/-- The entry sweep never touches a non-active subscription. -/
theorem graceEntryPhase_frame_nonactive (env : Env) (g : Nat) (today : Int) (st : St)
    (hnd : (st.subs.map (fun x => x.id)).Nodup) {s0 : Subscription}
    (hs0 : s0 ∈ st.subs) (hna : s0.status ≠ .active) :
    lookupSub (graceEntryPhase env g today st) s0.id = some s0 := by
  have h0 : lookupSub st s0.id = some s0 := lookupSub_of_mem hs0 hnd
  unfold graceEntryPhase
  refine (foldl_proj_const _ (fun s => lookupSub s s0.id) _ st ?_).trans h0
  intro s b hb
  have hbmem : b ∈ st.subs := (List.mem_filter.mp hb).1
  have hbp : b.status = .active ∧ b.expiryDate < today :=
    of_decide_eq_true (List.mem_filter.mp hb).2
  have hbid : s0.id ≠ b.id := by
    intro h
    have : s0 = b := key_inj_of_nodup (fun z => z.id) hnd hs0 hbmem h
    exact hna (by rw [this, hbp.1])
  exact graceEntryStep_lookup_ne env g s b s0.id hbid

/-- The in-grace sweep never touches a non-grace subscription. -/
theorem graceInPhase_frame_nongrace (env : Env) (g : Nat) (today : Int) (st : St)
    (hnd : (st.subs.map (fun x => x.id)).Nodup) {s0 : Subscription}
    (hs0 : s0 ∈ st.subs) (hng : s0.status ≠ .grace) :
    lookupSub (graceInPhase env g today st) s0.id = some s0 := by
  have h0 : lookupSub st s0.id = some s0 := lookupSub_of_mem hs0 hnd
  unfold graceInPhase
  refine (foldl_proj_const _ (fun s => lookupSub s s0.id) _ st ?_).trans h0
  intro s b hb
  have hbmem : b ∈ st.subs := (List.mem_filter.mp hb).1
  have hbp : b.status = .grace := of_decide_eq_true (List.mem_filter.mp hb).2
  have hbid : s0.id ≠ b.id := by
    intro h
    have : s0 = b := key_inj_of_nodup (fun z => z.id) hnd hs0 hbmem h
    exact hng (by rw [this, hbp])
  exact graceInStep_lookup_ne env g today s b s0.id hbid

/-- The entry sweep never issues ban calls. -/
theorem graceEntryPhase_banCalls (env : Env) (g : Nat) (today : Int) (st : St) :
    (graceEntryPhase env g today st).banCalls = st.banCalls :=
  foldl_proj_const _ (fun s => s.banCalls) _ st (fun s b _ => graceEntryStep_banCalls env g s b)

/-- Under Invariant A and survival of terminal records, a grace
candidate that is not `sub`'s record belongs to another user. -/
theorem grace_candidate_tid_ne (st stX : St) (sub : Subscription)
    (hndX : (stX.subs.map (fun x => x.id)).Nodup)
    (hproj : tidProj stX = tidProj st)
    (honly : ∀ s0 ∈ st.subs, s0.telegramId = sub.telegramId →
       s0.id = sub.id ∨ (s0.status ≠ .active ∧ s0.status ≠ .grace))
    (hsurv : ∀ s0 ∈ st.subs, s0.status ≠ .active → s0.status ≠ .grace →
       lookupSub stX s0.id = some s0)
    {b : Subscription} (hb : b ∈ stX.subs) (hbgr : b.status = .grace)
    (hbid : b.id ≠ sub.id) :
    b.telegramId ≠ sub.telegramId := by
  intro htid
  rcases tidProj_mem hproj hb with ⟨s0, hs0m, hs0id, hs0tid⟩
  rcases honly s0 hs0m (hs0tid.trans htid) with h | ⟨hna, hng⟩
  · exact hbid (hs0id ▸ h)
  · have hlk := hsurv s0 hs0m hna hng
    have hb2 : lookupSub stX s0.id = some b := by
      rw [hs0id]
      exact lookupSub_of_mem hb hndX
    have hs0b : s0 = b := Option.some_inj.mp (hlk.symm.trans hb2)
    exact hng (by rw [hs0b, hbgr])

/-- C1: for a `grace` subscription at least `GRACE_PERIOD_DAYS` past
expiry, one run of the grace job performs the terminal transition —
issues the group-removal call, sets the subscription to `expired` with
`graceDaysUsed = GRACE_PERIOD_DAYS`, mirrors the user to `expired` with
`graceDaysRemaining = 0`, writes the system audit entry recording the
grace-period expiry with the overdue day count, and attempts the removal
notice — and re-running the job on the resulting state performs no
further transition and no further removal call for that subscription.
Assumes Invariant A for the user (every other record of theirs is
terminal) and that the user has not blocked the bot (a 403 on the
removal notice would divert through the blocked-user procedure, §4.5). -/
theorem c1_grace_expiry_terminal (env : Env) (graceDays : Nat) (today : Int) (st : St)
    (sub : Subscription)
    (hmem : sub ∈ st.subs)
    (hnd : (st.subs.map (fun x => x.id)).Nodup)
    (hgr : sub.status = .grace)
    (hover : (graceDays : Int) ≤ daysSinceExpiry today sub)
    (honly : ∀ s0 ∈ st.subs, s0.telegramId = sub.telegramId →
       s0.id = sub.id ∨ (s0.status ≠ .active ∧ s0.status ≠ .grace))
    (hnb : env.deliver sub.telegramId ≠ .unreachable) :
    lookupSub (gracePeriodHandler env graceDays today st) sub.id
      = some { sub with status := .expired, graceDaysUsed := graceDays } ∧
    sub.telegramId ∈ (gracePeriodHandler env graceDays today st).banCalls ∧
    (sub.telegramId, MsgTag.accessRemoved) ∈ (gracePeriodHandler env graceDays today st).sent ∧
    ({ adminId := 0, actionType := "ban_user", targetUserId := sub.telegramId,
       reason := .gracePeriodExpired (daysSinceExpiry today sub) } : AuditEntry)
      ∈ (gracePeriodHandler env graceDays today st).audit ∧
    lookupUser (gracePeriodHandler env graceDays today st) sub.telegramId
      = (lookupUser st sub.telegramId).map
          (fun u => { u with status := .expired, graceDaysRemaining := some 0 }) ∧
    lookupSub (gracePeriodHandler env graceDays today
        (gracePeriodHandler env graceDays today st)) sub.id
      = lookupSub (gracePeriodHandler env graceDays today st) sub.id ∧
    ((gracePeriodHandler env graceDays today
        (gracePeriodHandler env graceDays today st)).banCalls).count sub.telegramId
      = ((gracePeriodHandler env graceDays today st).banCalls).count sub.telegramId := by
  have hnotact : sub.status ≠ .active := by
    rw [hgr]
    decide
  -- phase 1 leaves the grace record alone
  have hlk1 : lookupSub (graceEntryPhase env graceDays today st) sub.id = some sub :=
    graceEntryPhase_frame_nonactive env graceDays today st hnd hmem hnotact
  have hnd1 : ((graceEntryPhase env graceDays today st).subs.map (fun x => x.id)).Nodup :=
    nodup_ids_of_tidProj (tidProj_graceEntryPhase env graceDays today st) hnd
  have hmem1 : sub ∈ (graceEntryPhase env graceDays today st).subs := lookupSub_mem hlk1
  -- phase 1 leaves the user alone (no active record shares the telegramId)
  have huser1 : lookupUser (graceEntryPhase env graceDays today st) sub.telegramId
      = lookupUser st sub.telegramId := by
    unfold graceEntryPhase
    refine foldl_proj_const _ (fun s => lookupUser s sub.telegramId) _ st ?_
    intro s b hb
    have hbmem : b ∈ st.subs := (List.mem_filter.mp hb).1
    have hbact : b.status = .active := (of_decide_eq_true (List.mem_filter.mp hb).2).1
    have hbtid : sub.telegramId ≠ b.telegramId := by
      intro h
      rcases honly b hbmem h.symm with hbid | ⟨hna, _⟩
      · have hbs : b = sub := key_inj_of_nodup (fun z => z.id) hnd hbmem hmem hbid
        rw [hbs, hgr] at hbact
        cases hbact
      · exact hna hbact
    exact graceEntryStep_lookupUser_ne env graceDays s b sub.telegramId hbtid
  -- our record is an in-grace candidate
  have hfil2 : sub ∈ (graceEntryPhase env graceDays today st).subs.filter
      (fun z => decide (z.status = .grace)) :=
    List.mem_filter.mpr ⟨hmem1, decide_eq_true hgr⟩
  have hnodup2 : ((graceEntryPhase env graceDays today st).subs.filter
      (fun z => decide (z.status = .grace))).Nodup := (hnd1.of_map).filter _
  have hsurv1 : ∀ s0 ∈ st.subs, s0.status ≠ .active → s0.status ≠ .grace →
      lookupSub (graceEntryPhase env graceDays today st) s0.id = some s0 :=
    fun s0 h0 hna _ => graceEntryPhase_frame_nonactive env graceDays today st hnd h0 hna
  -- the terminal write on the subscription
  have hlkT : lookupSub (gracePeriodHandler env graceDays today st) sub.id
      = some { sub with status := .expired, graceDaysUsed := graceDays } := by
    have key := foldl_proj_single (graceInStep env graceDays today)
      (fun s => lookupSub s sub.id)
      (Option.map (fun x =>
        if x.id = sub.id then { x with status := .expired, graceDaysUsed := graceDays } else x))
      ((graceEntryPhase env graceDays today st).subs.filter (fun z => decide (z.status = .grace)))
      sub (graceEntryPhase env graceDays today st) hfil2 hnodup2
      (fun b hb hbne s => by
        have hbmem : b ∈ (graceEntryPhase env graceDays today st).subs := (List.mem_filter.mp hb).1
        have hbid : sub.id ≠ b.id := fun h =>
          hbne (key_inj_of_nodup (fun z => z.id) hnd1 hbmem hmem1 h.symm)
        exact graceInStep_lookup_ne env graceDays today s b sub.id hbid)
      (fun s => graceInStep_lookup_self_terminal env graceDays today s sub hover)
    simp only [] at key
    show lookupSub (((graceEntryPhase env graceDays today st).subs.filter
        (fun z => decide (z.status = .grace))).foldl (graceInStep env graceDays today)
        (graceEntryPhase env graceDays today st)) sub.id = _
    rw [key, hlk1]
    simp
  -- the user mirror
  have huserT : lookupUser (gracePeriodHandler env graceDays today st) sub.telegramId
      = (lookupUser st sub.telegramId).map
          (fun u => { u with status := .expired, graceDaysRemaining := some 0 }) := by
    have key := foldl_proj_single (graceInStep env graceDays today)
      (fun s => lookupUser s sub.telegramId)
      (Option.map (fun u =>
        if u.telegramId = sub.telegramId
        then { u with status := .expired, graceDaysRemaining := some 0 } else u))
      ((graceEntryPhase env graceDays today st).subs.filter (fun z => decide (z.status = .grace)))
      sub (graceEntryPhase env graceDays today st) hfil2 hnodup2
      (fun b hb hbne s => by
        have hbmem : b ∈ (graceEntryPhase env graceDays today st).subs := (List.mem_filter.mp hb).1
        have hbgr : b.status = .grace := of_decide_eq_true (List.mem_filter.mp hb).2
        have hbid : b.id ≠ sub.id := fun h =>
          hbne (key_inj_of_nodup (fun z => z.id) hnd1 hbmem hmem1 h)
        have hbtid : b.telegramId ≠ sub.telegramId :=
          grace_candidate_tid_ne st (graceEntryPhase env graceDays today st) sub hnd1
            (tidProj_graceEntryPhase env graceDays today st) honly hsurv1 hbmem hbgr hbid
        exact graceInStep_lookupUser_ne env graceDays today s b sub.telegramId (Ne.symm hbtid))
      (fun s => graceInStep_user_terminal env graceDays today s sub hover hnb)
    simp only [] at key
    show lookupUser (((graceEntryPhase env graceDays today st).subs.filter
        (fun z => decide (z.status = .grace))).foldl (graceInStep env graceDays today)
        (graceEntryPhase env graceDays today st)) sub.telegramId = _
    rw [key, huser1]
    cases h : lookupUser st sub.telegramId with
    | none => rfl
    | some u =>
        have : u.telegramId = sub.telegramId := lookupUser_tid h
        simp [this]
  -- observable effects of the terminal transition
  have hban : sub.telegramId ∈ (gracePeriodHandler env graceDays today st).banCalls := by
    show _ ∈ (((graceEntryPhase env graceDays today st).subs.filter
        (fun z => decide (z.status = .grace))).foldl (graceInStep env graceDays today)
        (graceEntryPhase env graceDays today st)).banCalls
    refine foldl_mem_intro (graceInStep env graceDays today) (fun s => s.banCalls) _ _ sub _
      hfil2 ?_ ?_
    · intro s b _ y hy
      exact graceInStep_banCalls_mono env graceDays today s b y hy
    · intro s
      exact (graceInStep_terminal_effects env graceDays today s sub hover).1
  have hsent : (sub.telegramId, MsgTag.accessRemoved)
      ∈ (gracePeriodHandler env graceDays today st).sent := by
    show _ ∈ (((graceEntryPhase env graceDays today st).subs.filter
        (fun z => decide (z.status = .grace))).foldl (graceInStep env graceDays today)
        (graceEntryPhase env graceDays today st)).sent
    refine foldl_mem_intro (graceInStep env graceDays today) (fun s => s.sent) _ _ sub _
      hfil2 ?_ ?_
    · intro s b _ y hy
      exact graceInStep_sent_mono env graceDays today s b y hy
    · intro s
      exact (graceInStep_terminal_effects env graceDays today s sub hover).2.1
  have haudit : ({ adminId := 0, actionType := "ban_user", targetUserId := sub.telegramId,
                   reason := .gracePeriodExpired (daysSinceExpiry today sub) } : AuditEntry)
      ∈ (gracePeriodHandler env graceDays today st).audit := by
    show _ ∈ (((graceEntryPhase env graceDays today st).subs.filter
        (fun z => decide (z.status = .grace))).foldl (graceInStep env graceDays today)
        (graceEntryPhase env graceDays today st)).audit
    refine foldl_mem_intro (graceInStep env graceDays today) (fun s => s.audit) _ _ sub _
      hfil2 ?_ ?_
    · intro s b _ y hy
      exact graceInStep_audit_mono env graceDays today s b y hy
    · intro s
      exact (graceInStep_terminal_effects env graceDays today s sub hover).2.2
  -- the rerun is a no-op for this subscription
  have hndT : ((gracePeriodHandler env graceDays today st).subs.map (fun x => x.id)).Nodup :=
    nodup_ids_of_tidProj (tidProj_gracePeriodHandler env graceDays today st) hnd
  have hmemT : ({ sub with status := .expired, graceDaysUsed := graceDays } : Subscription)
      ∈ (gracePeriodHandler env graceDays today st).subs := lookupSub_mem hlkT
  have hTna : ({ sub with status := .expired, graceDaysUsed := graceDays } : Subscription).status
      ≠ .active := fun h => nomatch h
  have hTng : ({ sub with status := .expired, graceDaysUsed := graceDays } : Subscription).status
      ≠ .grace := fun h => nomatch h
  have hT1 : lookupSub (graceEntryPhase env graceDays today
      (gracePeriodHandler env graceDays today st)) sub.id
      = some { sub with status := .expired, graceDaysUsed := graceDays } :=
    graceEntryPhase_frame_nonactive env graceDays today _ hndT hmemT hTna
  have hndT1 : ((graceEntryPhase env graceDays today
      (gracePeriodHandler env graceDays today st)).subs.map (fun x => x.id)).Nodup :=
    nodup_ids_of_tidProj (tidProj_graceEntryPhase env graceDays today _) hndT
  have hT2 : lookupSub (gracePeriodHandler env graceDays today
      (gracePeriodHandler env graceDays today st)) sub.id
      = some { sub with status := .expired, graceDaysUsed := graceDays } :=
    graceInPhase_frame_nongrace env graceDays today _ hndT1 (lookupSub_mem hT1) hTng
  have hprojT1 : tidProj (graceEntryPhase env graceDays today
      (gracePeriodHandler env graceDays today st)) = tidProj st := by
    rw [tidProj_graceEntryPhase, tidProj_gracePeriodHandler]
  have hsurv2 : ∀ s0 ∈ st.subs, s0.status ≠ .active → s0.status ≠ .grace →
      lookupSub (graceEntryPhase env graceDays today
        (gracePeriodHandler env graceDays today st)) s0.id = some s0 := by
    intro s0 h0 hna hng
    have e1 := graceEntryPhase_frame_nonactive env graceDays today st hnd h0 hna
    have e2 : lookupSub (gracePeriodHandler env graceDays today st) s0.id = some s0 :=
      graceInPhase_frame_nongrace env graceDays today _ hnd1 (lookupSub_mem e1) hng
    exact graceEntryPhase_frame_nonactive env graceDays today _ hndT (lookupSub_mem e2) hna
  have hcount : ((gracePeriodHandler env graceDays today
      (gracePeriodHandler env graceDays today st)).banCalls).count sub.telegramId
      = ((gracePeriodHandler env graceDays today st).banCalls).count sub.telegramId := by
    have hphase1 : ((graceEntryPhase env graceDays today
        (gracePeriodHandler env graceDays today st)).banCalls).count sub.telegramId
        = ((gracePeriodHandler env graceDays today st).banCalls).count sub.telegramId := by
      rw [graceEntryPhase_banCalls]
    have hphase2 : ((gracePeriodHandler env graceDays today
        (gracePeriodHandler env graceDays today st)).banCalls).count sub.telegramId
        = ((graceEntryPhase env graceDays today
            (gracePeriodHandler env graceDays today st)).banCalls).count sub.telegramId := by
      show (((graceEntryPhase env graceDays today
          (gracePeriodHandler env graceDays today st)).subs.filter
          (fun z => decide (z.status = .grace))).foldl (graceInStep env graceDays today)
          (graceEntryPhase env graceDays today
            (gracePeriodHandler env graceDays today st))).banCalls.count sub.telegramId = _
      refine foldl_proj_const _ (fun s : St => s.banCalls.count sub.telegramId) _ _ ?_
      intro s b hb
      have hbmem : b ∈ (graceEntryPhase env graceDays today
          (gracePeriodHandler env graceDays today st)).subs := (List.mem_filter.mp hb).1
      have hbgr : b.status = .grace := of_decide_eq_true (List.mem_filter.mp hb).2
      have hbid : b.id ≠ sub.id := by
        intro h
        have hb2 : lookupSub (graceEntryPhase env graceDays today
            (gracePeriodHandler env graceDays today st)) sub.id = some b := by
          rw [← h]
          exact lookupSub_of_mem hbmem hndT1
        have hbeq : ({ sub with status := .expired, graceDaysUsed := graceDays } : Subscription)
            = b := Option.some_inj.mp (hT1.symm.trans hb2)
        rw [← hbeq] at hbgr
        exact hTng hbgr
      have hbtid : b.telegramId ≠ sub.telegramId :=
        grace_candidate_tid_ne st _ sub hndT1 hprojT1 honly hsurv2 hbmem hbgr hbid
      exact graceInStep_banCalls_count_ne env graceDays today s b sub.telegramId hbtid
    rw [hphase2, hphase1]
  exact ⟨hlkT, hban, hsent, haudit, huserT, hT2.trans hlkT.symm, hcount⟩

theorem c1_witness :
    ((mkSub 0 9 .grace 0) ∈ stC1.subs ∧
     (stC1.subs.map (fun x => x.id)).Nodup ∧
     (mkSub 0 9 .grace 0).status = .grace ∧
     ((3 : Nat) : Int) ≤ daysSinceExpiry (3 * msPerDay) (mkSub 0 9 .grace 0) ∧
     (∀ s0 ∈ stC1.subs, s0.telegramId = (mkSub 0 9 .grace 0).telegramId →
        s0.id = (mkSub 0 9 .grace 0).id ∨ (s0.status ≠ .active ∧ s0.status ≠ .grace)) ∧
     envOk.deliver (mkSub 0 9 .grace 0).telegramId ≠ .unreachable) ∧
    (lookupSub (gracePeriodHandler envOk 3 (3 * msPerDay) stC1) (mkSub 0 9 .grace 0).id
       = some { mkSub 0 9 .grace 0 with status := .expired, graceDaysUsed := 3 } ∧
     (mkSub 0 9 .grace 0).telegramId
       ∈ (gracePeriodHandler envOk 3 (3 * msPerDay) stC1).banCalls ∧
     ((mkSub 0 9 .grace 0).telegramId, MsgTag.accessRemoved)
       ∈ (gracePeriodHandler envOk 3 (3 * msPerDay) stC1).sent ∧
     ({ adminId := 0, actionType := "ban_user", targetUserId := (mkSub 0 9 .grace 0).telegramId,
        reason := .gracePeriodExpired (daysSinceExpiry (3 * msPerDay) (mkSub 0 9 .grace 0)) } : AuditEntry)
       ∈ (gracePeriodHandler envOk 3 (3 * msPerDay) stC1).audit ∧
     lookupUser (gracePeriodHandler envOk 3 (3 * msPerDay) stC1) (mkSub 0 9 .grace 0).telegramId
       = (lookupUser stC1 (mkSub 0 9 .grace 0).telegramId).map
           (fun u => { u with status := .expired, graceDaysRemaining := some 0 }) ∧
     lookupSub (gracePeriodHandler envOk 3 (3 * msPerDay)
         (gracePeriodHandler envOk 3 (3 * msPerDay) stC1)) (mkSub 0 9 .grace 0).id
       = lookupSub (gracePeriodHandler envOk 3 (3 * msPerDay) stC1) (mkSub 0 9 .grace 0).id ∧
     ((gracePeriodHandler envOk 3 (3 * msPerDay)
         (gracePeriodHandler envOk 3 (3 * msPerDay) stC1)).banCalls).count
           (mkSub 0 9 .grace 0).telegramId
       = ((gracePeriodHandler envOk 3 (3 * msPerDay) stC1).banCalls).count
           (mkSub 0 9 .grace 0).telegramId) :=
  ⟨⟨by decide, by decide, by decide, by decide, by decide, by decide⟩,
    c1_grace_expiry_terminal envOk 3 (3 * msPerDay) stC1 (mkSub 0 9 .grace 0)
      (by decide) (by decide) (by decide) (by decide) (by decide) (by decide)⟩

/-! ## C7 -/

/-- C7 (code bug): the in-grace loop body has no per-candidate
try/catch, so a persistence failure on one candidate rejects the whole
job and the remaining candidates are not processed in that run.  With
two overdue in-grace subscriptions where saving the first throws
(`saveFails 0`), the second — although it meets the terminal condition —
keeps its `grace` record, gets no removal call and no removal notice;
the same loop with a healthy persistence layer does transition it.  This
contradicts the claim (and spec §4.2/§5/§7) that a failure acting on one
candidate must not block the others. -/
theorem c7_persistence_failure_blocks_batch :
    ((3 : Nat) : Int) ≤ daysSinceExpiry (3 * msPerDay) (mkSub 1 20 .grace 0) ∧
    lookupSub (graceInLoopE envOk (fun i => decide (i = 0)) 3 (3 * msPerDay) stC7
        [mkSub 0 10 .grace 0, mkSub 1 20 .grace 0]) 1
      = some (mkSub 1 20 .grace 0) ∧
    (20 : Nat) ∉ (graceInLoopE envOk (fun i => decide (i = 0)) 3 (3 * msPerDay) stC7
        [mkSub 0 10 .grace 0, mkSub 1 20 .grace 0]).banCalls ∧
    ((20 : Nat), MsgTag.accessRemoved)
      ∉ (graceInLoopE envOk (fun i => decide (i = 0)) 3 (3 * msPerDay) stC7
        [mkSub 0 10 .grace 0, mkSub 1 20 .grace 0]).sent ∧
    (10 : Nat) ∈ (graceInLoopE envOk (fun i => decide (i = 0)) 3 (3 * msPerDay) stC7
        [mkSub 0 10 .grace 0, mkSub 1 20 .grace 0]).banCalls ∧
    lookupSub (graceInLoopE envOk (fun _ => false) 3 (3 * msPerDay) stC7
        [mkSub 0 10 .grace 0, mkSub 1 20 .grace 0]) 1
      = some { mkSub 1 20 .grace 0 with status := .expired, graceDaysUsed := 3 } :=
  ⟨by decide, by decide, by decide, by decide, by decide, by decide⟩

end SubBot
